import Mathlib

/-!
Verification development for the akash-ms-mcp server.

The TypeScript sources are shallowly embedded: every pure computation is
translated into an executable Lean definition, and every effectful step
(an outbound HTTP call, the clock, JSON stringification) is passed in as an
explicit oracle argument, so a handler becomes a total function of its
oracles.  JavaScript semantics that the code relies on (array slicing,
string truthiness, array join, NaN arithmetic of IEEE division, the
template-literal rendering of undefined) are modelled by small executable
functions defined below; each such model carries a comment naming the
JavaScript operation it stands for.
-/

namespace AkashMS

/-! ## Models of JavaScript primitives -/

/-- Truthiness of a JavaScript string-or-undefined value: undefined, null and
the empty string are falsy, every other string is truthy. -/
def truthyStr : Option String → Bool
  | none => false
  | some s => !(s == "")

/-- Model of `Array.prototype.join(sep)`. -/
def jsJoin (sep : String) : List String → String
  | [] => ""
  | [x] => x
  | x :: y :: rest => x ++ sep ++ jsJoin sep (y :: rest)

/-- Model of `Array.prototype.slice(b, e)` (ECMA-262 22.1.3.25): negative
indices count from the end, the extracted range is clamped to the array. -/
def jsSlice {α : Type} (xs : List α) (b e : Int) : List α :=
  let n : Int := xs.length
  let bc : Nat := (if b < 0 then max (n + b) 0 else min b n).toNat
  let ec : Nat := (if e < 0 then max (n + e) 0 else min e n).toNat
  (xs.drop bc).take (ec - bc)

/-- Model of `String.prototype.startsWith(p)`, computed on the character
lists so that the kernel can evaluate it. -/
def jsStartsWith (s p : String) : Bool := p.data.isPrefixOf s.data

/-- JavaScript whitespace characters handled by `String.prototype.trim`
(restricted to the ASCII ones that occur in this code base). -/
def jsIsWhitespace (c : Char) : Bool :=
  c == ' ' || c == '\n' || c == '\t' || c == '\r'

/-- Model of `String.prototype.trim`, computed on the character lists. -/
def jsTrim (s : String) : String :=
  ⟨((s.data.dropWhile jsIsWhitespace).reverse.dropWhile jsIsWhitespace).reverse⟩

/-- A JavaScript number: either an actual (rational) value, an infinity, or
NaN.  Signed zeros are not distinguished; none of the embedded code
depends on them. -/
inductive JSNum where
  | nan : JSNum
  | inf (neg : Bool) : JSNum
  | num (q : ℚ) : JSNum
deriving DecidableEq

/-- IEEE-style division as performed on JavaScript numbers. -/
def jsDiv : JSNum → JSNum → JSNum
  | .nan, _ => .nan
  | _, .nan => .nan
  | .inf _, .inf _ => .nan
  | .inf s, .num _ => .inf s
  | .num _, .inf _ => .num 0
  | .num a, .num b =>
      if b = 0 then (if a = 0 then .nan else .inf (decide (a < 0))) else .num (a / b)

/-- IEEE-style multiplication as performed on JavaScript numbers. -/
def jsMul : JSNum → JSNum → JSNum
  | .nan, _ => .nan
  | _, .nan => .nan
  | .inf s, .inf t => .inf (s != t)
  | .inf s, .num b => if b = 0 then .nan else .inf (s != decide (b < 0))
  | .num a, .inf t => if a = 0 then .nan else .inf (t != decide (a < 0))
  | .num a, .num b => .num (a * b)

/-- Rounding used by `toFixed`: nearest, ties away from zero. -/
def jsRound (q : ℚ) : Int :=
  if 0 ≤ q then ⌊q + 1 / 2⌋ else -⌊-q + 1 / 2⌋

/-- Model of `Number.prototype.toFixed(1)`.  On NaN it yields the string
NaN, which is the case the claims exercise; on finite values it renders
one decimal digit. -/
def jsToFixed1 : JSNum → String
  | .nan => "NaN"
  | .inf neg => if neg then "-Infinity" else "Infinity"
  | .num q =>
      let r := jsRound (q * 10)
      (if r < 0 then "-" else "") ++ toString (r.natAbs / 10) ++ "." ++ toString (r.natAbs % 10)

/-- Numeric value of a digit list (most significant first). -/
def digitsVal (l : List Char) : Nat :=
  l.foldl (fun a c => a * 10 + (c.toNat - 48)) 0

/-- Whether every character of the list is a decimal digit. -/
def allDigits (l : List Char) : Bool := l.all (fun c => c.isDigit)

/-- Parse an unsigned decimal literal (digits with an optional decimal
point).  Returns none when the characters are not such a literal. -/
def parseUnsignedDecimal : List Char → Option ℚ
  | l =>
    match l.splitOn '.' with
    | [a] => if a ≠ [] ∧ allDigits a then some (digitsVal a) else none
    | [a, b] =>
        if (a ≠ [] ∨ b ≠ []) ∧ allDigits a ∧ allDigits b then
          some ((digitsVal a : ℚ) + (digitsVal b : ℚ) / (10 : ℚ) ^ b.length)
        else none
    | _ => none

/-- Parse an optionally signed decimal literal. -/
def parseSignedDecimal : List Char → Option ℚ
  | '-' :: rest => (parseUnsignedDecimal rest).map (fun q => -q)
  | '+' :: rest => parseUnsignedDecimal rest
  | l => parseUnsignedDecimal l

/-- Model of the JavaScript `Number(string)` conversion: whitespace is
trimmed, the empty string converts to 0, decimal literals and the Infinity
spellings convert to their values, and anything else (in particular every
non-numeric string) converts to NaN.  Hexadecimal and exponent literals,
which never occur in the data this code handles, are mapped to NaN. -/
def jsStringToNumber (s : String) : JSNum :=
  let t := jsTrim s
  if t.data = [] then .num 0
  else if t = "Infinity" || t = "+Infinity" then .inf false
  else if t = "-Infinity" then .inf true
  else
    match parseSignedDecimal t.data with
    | some q => .num q
    | none => .nan

/-! ## The batched metric prober (src/utils.ts) -/

/-- The hard-coded sandbox host of `config.netdata.sandboxHost`. -/
def sandboxHost : String := "216.153.63.25"

/-- The hard-coded Akash provider API base URL of `config.akash`. -/
def akashProviderApiUrl : String := "https://providermon.akashnet.net"

/-- The URL built by `queryAgentMetric` before issuing its HTTP GET. -/
def agentDataUrl (host context : String) (afterSeconds : Int) : String :=
  "http://" ++ host ++ ":19999/api/v1/data?context=" ++ context ++
    "&after=" ++ toString afterSeconds ++ "&before=0"

/-- Body of a successful agent data response: the `data` field (none models
an absent or non-array value) and the `labels` field. -/
structure AgentDataResponse where
  data : Option (List (List Int))
  labels : Option (List String)
deriving DecidableEq

/-- Oracle for direct agent HTTP GETs, keyed by the full request URL; an
error value carries the message of the transport failure. -/
def AgentNet : Type := String → Except String AgentDataResponse

/-- Result record produced by `queryAgentMetric` for one context. -/
structure MetricResult where
  context : String
  active : Bool
  dataPoints : Nat
  labels : List String
  lastValue : Option (List Int)
  error : Option String
deriving DecidableEq

/-- Embedding of `queryAgentMetric` (src/utils.ts): build the agent URL,
consult the network oracle there, and classify the outcome; a transport
failure is caught and returned as a result with the error message set. -/
def queryAgentMetric (net : AgentNet) (context : String) (afterSeconds : Int := -300) :
    MetricResult :=
  let url := agentDataUrl sandboxHost context afterSeconds
  match net url with
  | .ok resp =>
      match resp.data with
      | some rows =>
          if rows.isEmpty then
            { context := context, active := false, dataPoints := 0,
              labels := resp.labels.getD [], lastValue := none, error := none }
          else
            { context := context, active := true, dataPoints := rows.length,
              labels := resp.labels.getD [], lastValue := rows.head?, error := none }
      | none =>
          { context := context, active := false, dataPoints := 0,
            labels := resp.labels.getD [], lastValue := none, error := none }
  | .error msg =>
      { context := context, active := false, dataPoints := 0,
        labels := [], lastValue := none, error := some msg }

/-- Summary block of `testMetricsInBatches`. -/
structure MetricSummary where
  total : Nat
  tested : Nat
  activeCount : Nat
  inactiveCount : Nat
  errorCount : Nat
deriving DecidableEq

/-- Accumulated output of `testMetricsInBatches`. -/
structure MetricTestResults where
  active : List MetricResult
  inactive : List MetricResult
  errors : List MetricResult
  summary : MetricSummary
deriving DecidableEq

/-- The result record `testMetricsInBatches` starts from. -/
def initialResults (contexts : List String) : MetricTestResults :=
  { active := [], inactive := [], errors := [],
    summary := { total := contexts.length, tested := 0,
                 activeCount := 0, inactiveCount := 0, errorCount := 0 } }

/-- The categorisation step of the inner loop of `testMetricsInBatches`:
a truthy error puts the result among the errors, otherwise the active flag
decides between active and inactive; the summary counters follow. -/
def categorize (acc : MetricTestResults) (r : MetricResult) : MetricTestResults :=
  let s := acc.summary
  let s1 := { s with tested := s.tested + 1 }
  if truthyStr r.error then
    { acc with
      errors := acc.errors ++ [r]
      summary := { s1 with errorCount := s1.errorCount + 1 } }
  else if r.active then
    { acc with
      active := acc.active ++ [r]
      summary := { s1 with activeCount := s1.activeCount + 1 } }
  else
    { acc with
      inactive := acc.inactive ++ [r]
      summary := { s1 with inactiveCount := s1.inactiveCount + 1 } }

/-- One loop iteration of `testMetricsInBatches`, indexed by fuel because
the source loop `for (let i = 0; i < contexts.length; i += batchSize)` does
not terminate for every batch size.  The state carries the loop index `i`,
the accumulated results, and (as instrumentation for verification) the
list of batches processed so far.  The inter-batch delay is timing
behaviour and has no effect on the returned data. -/
def testMetricsInBatchesAux (net : AgentNet) (contexts : List String) (batchSize : Int) :
    Nat → Int → MetricTestResults × List (List String) →
    Option (MetricTestResults × List (List String))
  | 0, _, _ => none
  | fuel + 1, i, acc =>
      if i < (contexts.length : Int) then
        let batch := jsSlice contexts i (i + batchSize)
        let batchResults := batch.map (fun c => queryAgentMetric net c)
        testMetricsInBatchesAux net contexts batchSize fuel (i + batchSize)
          (batchResults.foldl categorize acc.1, acc.2 ++ [batch])
      else some acc

/-- Embedding of `testMetricsInBatches` (src/utils.ts).  The fuel
`contexts.length + 1` is proved sufficient whenever `batchSize ≥ 1`
(every iteration then advances the index by at least one); a `none`
result means the source loop never terminates. -/
def testMetricsInBatches (net : AgentNet) (contexts : List String) (batchSize : Int := 5) :
    Option (MetricTestResults × List (List String)) :=
  testMetricsInBatchesAux net contexts batchSize (contexts.length + 1) 0
    (initialResults contexts, [])

/-- The results of `testMetricsInBatches` as used by its callers, all of
which pass the default batch size 5, for which the loop terminates. -/
def testMetricsInBatchesTotal (net : AgentNet) (contexts : List String)
    (batchSize : Int := 5) : MetricTestResults :=
  ((testMetricsInBatches net contexts batchSize).map Prod.fst).getD
    (initialResults contexts)

/-- Classification predicate: results routed to the errors list. -/
def isErrored (r : MetricResult) : Bool := truthyStr r.error

/-- Classification predicate: results routed to the active list. -/
def isActiveRes (r : MetricResult) : Bool := !truthyStr r.error && r.active

/-- Classification predicate: results routed to the inactive list. -/
def isInactiveRes (r : MetricResult) : Bool := !truthyStr r.error && !r.active

/-! ## Static tables (src/utils.ts) -/

/-- The static `ROOM_IDS` object of src/utils.ts, as the ordered list of
its key-value pairs (object literal keys keep insertion order). -/
def ROOM_IDS : List (String × String) := [
  ("valdi-sdg-h100", "016d43f2-d5c0-4a78-913c-a0bc91e245ed"),
  ("colo-he-nucs", "2421c260-1423-4f1a-bb47-ad5dc9e765fd"),
  ("colo-he-proxmox2", "2d177350-fe36-4f06-a211-364ba9b02abe"),
  ("evergreen-rtx-4090", "36629903-e073-4df9-836f-2e1512b4871e"),
  ("cato-v100", "72789f00-8cc4-48e3-90a0-3ea87170eb6a"),
  ("all-nodes", "93e19508-b494-4999-957f-802b48a2ba0d"),
  ("valdi-wdc-h100", "b62ef6bd-2007-4a7a-a633-b8b62caf1e9e"),
  ("colo-he-proxmox", "bbf6d7ac-faf7-4037-9b44-db1e2404bab1"),
  ("nebulablock-dfw-4090", "fb090f13-2e25-494f-960a-04a751f7bd0e"),
  ("coreweave-sandbox", "ffc6dce8-079f-4dc4-9b34-2a6f1e95a467")]

/-- Property lookup `ROOM_IDS[name]` on the object literal (own
properties only; the prototype chain of JavaScript objects is outside
this shallow embedding). -/
def roomIdsLookup (name : String) : Option String :=
  (ROOM_IDS.find? (fun kv => kv.1 == name)).map (fun kv => kv.2)

/-- The room names, as produced by `Object.keys(ROOM_IDS)`. -/
def roomNames : List String := ROOM_IDS.map (fun kv => kv.1)

/-- The static `METRIC_CATEGORIES` object of src/utils.ts, as the ordered
list of category names with their prefix lists. -/
def METRIC_CATEGORIES : List (String × List String) := [
  ("network", ["net.", "ip.", "ipv4.", "ipv6.", "system.net", "netfilter.",
    "k8s.cgroup.net_", "netdata.network"]),
  ("system", ["system.cpu", "system.ram", "system.load", "system.processes",
    "system.entropy", "system.uptime", "system.interrupts"]),
  ("disk", ["disk.", "system.io"]),
  ("memory", ["mem.", "system.pgpgio"]),
  ("docker", ["docker.", "cgroup."]),
  ("kubernetes", ["k8s."]),
  ("applications", ["app.", "user.", "usergroup."]),
  ("sensors", ["sensors.", "system.hw.sensor"]),
  ("nvidia", ["nvidia_smi."]),
  ("netdata_internal", ["netdata."])]

/-- Property lookup `METRIC_CATEGORIES[category]`. -/
def categoryLookup (category : String) : Option (List String) :=
  (METRIC_CATEGORIES.find? (fun kv => kv.1 == category)).map (fun kv => kv.2)

/-- Embedding of `filterContextsByCategory` (src/utils.ts): an unknown
category throws (modelled by the error constructor carrying the thrown
message); otherwise the contexts whose text starts with at least one of
the category prefixes are kept, in order. -/
def filterContextsByCategory (contexts : List String) (category : String) :
    Except String (List String) :=
  match categoryLookup category with
  | none =>
      .error ("Unknown category: " ++ category ++ ". Available: " ++
        jsJoin ", " (METRIC_CATEGORIES.map (fun kv => kv.1)))
  | some ps =>
      .ok (contexts.filter (fun context => ps.any (fun p => jsStartsWith context p)))

/-! ## The alarm aggregator (src/services/netdata.ts) -/

/-- The `alarmCounter` sub-object of one alarm-counter entry; the fields
are optional because the records are read defensively. Counter values are
modelled as naturals, the value domain the API produces. -/
structure AlarmCounter where
  warning : Option Nat
  critical : Option Nat
deriving DecidableEq

/-- One entry of the `results` array of the alarms fetch. -/
structure RoomAlarmEntry where
  roomID : String
  alarmCounter : Option AlarmCounter
  unreachableCount : Option Nat
deriving DecidableEq

/-- The body of the alarms fetch: the `results` field, none when absent. -/
structure AlarmsResponse where
  results : Option (List RoomAlarmEntry)
deriving DecidableEq

/-- One entry of the rooms fetch: a room identifier with its name. -/
structure RoomInfo where
  id : String
  name : String
deriving DecidableEq

/-- The per-room record pushed onto `roomsWithAlarms`. -/
structure RoomAlarmData where
  roomID : String
  roomName : String
  warnings : Nat
  critical : Nat
  unreachable : Nat
deriving DecidableEq

/-- One record of `criticalAlarmDetails`. -/
structure CriticalAlarm where
  host : String
  alertName : String
  status : String
  description : String
  chart : String
  room : String
deriving DecidableEq

/-- The `totals` block of the alarm summary. -/
structure AlarmTotals where
  warnings : Nat
  critical : Nat
  unreachable : Nat
  totalRooms : Nat
  roomsWithIssues : Nat
deriving DecidableEq

/-- The value returned by `getNetDataAlarms` (src/types.ts
`NetDataAlarmData`). -/
structure NetDataAlarmData where
  totals : AlarmTotals
  roomsWithAlarms : List RoomAlarmData
  criticalAlarmDetails : List CriticalAlarm
  allRooms : List RoomAlarmEntry
  error : Option String
deriving DecidableEq

/-- The `Object.fromEntries(roomsData.map(room => [room.id, room.name]))`
lookup: with duplicate ids the later entry wins, hence the search over the
reversed list. -/
def roomIdToName (roomsData : List RoomInfo) (id : String) : Option String :=
  (roomsData.reverse.find? (fun room => room.id == id)).map (fun room => room.name)

/-- The warnings count read from one alarm entry
(`room.alarmCounter?.warning || 0`). -/
def entryWarnings (room : RoomAlarmEntry) : Nat :=
  (room.alarmCounter.bind (fun c => c.warning)).getD 0

/-- The critical count read from one alarm entry
(`room.alarmCounter?.critical || 0`). -/
def entryCritical (room : RoomAlarmEntry) : Nat :=
  (room.alarmCounter.bind (fun c => c.critical)).getD 0

/-- The unreachable count read from one alarm entry
(`room.unreachableCount || 0`). -/
def entryUnreachable (room : RoomAlarmEntry) : Nat :=
  room.unreachableCount.getD 0

/-- The body of the `roomAlarms.forEach` loop of `getNetDataAlarms`: the
state is the pair (roomsWithAlarms, roomsWithCriticals), both appended in
iteration order. -/
def alarmsLoopStep (roomsData : List RoomInfo)
    (st : List RoomAlarmData × List RoomAlarmData) (room : RoomAlarmEntry) :
    List RoomAlarmData × List RoomAlarmData :=
  let warnings := entryWarnings room
  let critical := entryCritical room
  let unreachable := entryUnreachable room
  if (decide (0 < warnings) || decide (0 < critical) || decide (0 < unreachable)) &&
      truthyStr (roomIdToName roomsData room.roomID) then
    let roomData : RoomAlarmData :=
      { roomID := room.roomID, roomName := (roomIdToName roomsData room.roomID).getD "",
        warnings := warnings, critical := critical, unreachable := unreachable }
    if roomData.roomName == "All nodes" then
      (st.1 ++ [roomData], if 0 < critical then st.2 ++ [roomData] else st.2)
    else st
  else st

/-- The zero summary returned by the catch branch of `getNetDataAlarms`. -/
def zeroAlarmTotals : AlarmTotals :=
  { warnings := 0, critical := 0, unreachable := 0, totalRooms := 0, roomsWithIssues := 0 }

/-- Embedding of `getNetDataAlarms` (src/services/netdata.ts).  The two
parallel cloud fetches are an oracle argument giving either both decoded
bodies or the thrown message; `detailFetch` is the
`getCriticalAlarmDetails` helper, which catches every failure internally
and therefore appears as a total function producing the detail list. -/
def getNetDataAlarms
    (fetched : Except String (AlarmsResponse × List RoomInfo))
    (detailFetch : List RoomAlarmData → List CriticalAlarm) : NetDataAlarmData :=
  match fetched with
  | .error e =>
      { error := some e, totals := zeroAlarmTotals,
        roomsWithAlarms := [], criticalAlarmDetails := [], allRooms := [] }
  | .ok (alarmsData, roomsData) =>
      let roomAlarms := alarmsData.results.getD []
      let pair := roomAlarms.foldl (alarmsLoopStep roomsData) ([], [])
      let roomsWithAlarms := pair.1
      let roomsWithCriticals := pair.2
      let criticalAlarmDetails :=
        if 0 < roomsWithCriticals.length then detailFetch roomsWithCriticals else []
      let totalWarnings := roomsWithAlarms.foldl (fun s room => s + room.warnings) 0
      let totalCritical := roomsWithAlarms.foldl (fun s room => s + room.critical) 0
      let totalUnreachable := roomsWithAlarms.foldl (fun s room => s + room.unreachable) 0
      { totals :=
          { warnings := totalWarnings, critical := totalCritical,
            unreachable := totalUnreachable, totalRooms := roomAlarms.length,
            roomsWithIssues := roomsWithAlarms.length },
        roomsWithAlarms := roomsWithAlarms,
        criticalAlarmDetails := criticalAlarmDetails,
        allRooms := roomAlarms, error := none }

/-! ## JSON values and the tool-response envelope -/

/-- A JSON value, used for payloads whose structure the embedded code does
not inspect beyond a field access or a length. -/
inductive JValue where
  | null : JValue
  | bool (b : Bool) : JValue
  | num (q : ℚ) : JValue
  | str (s : String) : JValue
  | arr (xs : List JValue) : JValue
  | obj (fields : List (String × JValue)) : JValue

/-- Property access `v[key]` on a JSON value (own properties only). -/
def jget (v : JValue) (key : String) : Option JValue :=
  match v with
  | .obj fields => (fields.find? (fun kv => kv.1 == key)).map (fun kv => kv.2)
  | _ => none

/-- JavaScript truthiness of a JSON value. -/
def jsTruthy : JValue → Bool
  | .null => false
  | .bool b => b
  | .num q => !(q == 0)
  | .str s => !(s == "")
  | .arr _ => true
  | .obj _ => true

/-- Rendering of `v.length` inside a template literal: defined for arrays
and strings, the string undefined otherwise. -/
def jsLengthStr : JValue → String
  | .arr xs => toString xs.length
  | .str s => toString s.length
  | _ => "undefined"

/-- Template-literal rendering of a string-or-undefined value. -/
def displayOpt : Option String → String
  | some s => s
  | none => "undefined"

/-- Template-literal rendering of a boolean. -/
def boolStr (b : Bool) : String := if b then "true" else "false"

/-- The `a || b` fallback on two string-or-undefined values. -/
def jsOrStr (a b : Option String) : Option String := if truthyStr a then a else b

/-- The `a || d` fallback of a string-or-undefined value against a string
literal default. -/
def jsOrDefault (a : Option String) (d : String) : String :=
  if truthyStr a then a.getD "" else d

/-- One content item of a tool response. -/
structure TextContent where
  type : String
  text : String
deriving DecidableEq

/-- The uniform response envelope every handler returns. -/
structure ToolResponse where
  content : List TextContent
deriving DecidableEq

/-- The single-text envelope `content: [(type: text, text: t)]`. -/
def textResponse (t : String) : ToolResponse :=
  { content := [{ type := "text", text := t }] }

/-- The text of `response.content[0]`. -/
def firstText (r : ToolResponse) : String :=
  ((r.content.head?).map (fun c => c.text)).getD ""

/-- The argument object of a tool call: the optional fields the handlers
project out of it.  The outer `Option` at call sites distinguishes an
absent arguments object from a present one. -/
structure ToolArgs where
  room_name : Option String
  category : Option String
  sample_size : Option Int
  query : Option String
  page_name : Option String
deriving DecidableEq

/-- The empty arguments object, used for the `args || ` fallback. -/
def emptyArgs : ToolArgs :=
  { room_name := none, category := none, sample_size := none,
    query := none, page_name := none }

/-! ## Akash provider records (src/services/akash.ts) -/

/-- A loosely typed field value that arrives either as a number or as a
string. -/
inductive JPrim where
  | num (q : ℚ) : JPrim
  | str (s : String) : JPrim
deriving DecidableEq

/-- The `AkashProvider` record of src/types.ts: every field optional,
read defensively. -/
structure AkashProvider where
  host : Option String
  provider : Option String
  node : Option String
  allocatable : Option JPrim
  allocated : Option JPrim
  capacity : Option JPrim
  issue : Option String
  issue_type : Option String
  severity : Option String
  failureDuration : Option String
  failures : Option Nat
  failed_ips : Option (List String)
deriving DecidableEq

/-- An `AkashProvider` with every field absent. -/
def emptyProvider : AkashProvider :=
  { host := none, provider := none, node := none, allocatable := none,
    allocated := none, capacity := none, issue := none, issue_type := none,
    severity := none, failureDuration := none, failures := none, failed_ips := none }

/-- JavaScript truthiness of a number-or-string-or-undefined field. -/
def truthyPrim : Option JPrim → Bool
  | none => false
  | some (.num q) => !(q == 0)
  | some (.str s) => !(s == "")

/-- Rendering of a rational in a template literal.  Integers render
exactly like JavaScript; non-integer rationals, which do not occur in the
claims, use the Lean fraction notation. -/
def jsRatToString (q : ℚ) : String :=
  if q.den == 1 then toString q.num else toString q

/-- Template-literal rendering of a loosely typed field. -/
def primToString : Option JPrim → String
  | none => "undefined"
  | some (.num q) => jsRatToString q
  | some (.str s) => s

/-- The `p || d` display fallback used for the Allocatable and Allocated
lines. -/
def primDisplay (p : Option JPrim) (d : String) : String :=
  if truthyPrim p then primToString p else d

/-- The `Number(x)` conversion applied to a loosely typed field. -/
def jsNumberOfPrim : Option JPrim → JSNum
  | none => .nan
  | some (.num q) => .num q
  | some (.str s) => jsStringToNumber s

/-- The utilization expression of `getAkashCpuIssues` and
`getAkashMemoryIssues` (the two sites are textually identical):
`node.allocated and node.allocatable` truthy gives
`((Number(allocated) / Number(allocatable)) * 100).toFixed(1)` with a
percent sign appended, otherwise the string Unknown. -/
def utilizationStr (node : AkashProvider) : String :=
  if truthyPrim node.allocated && truthyPrim node.allocatable then
    jsToFixed1 (jsMul (jsDiv (jsNumberOfPrim node.allocated)
      (jsNumberOfPrim node.allocatable)) (.num 100)) ++ "%"
  else "Unknown"

/-- The per-node block of the `getAkashCpuIssues` detail breakdown. -/
def cpuIssueBlock (node : AkashProvider) : String :=
  "\n🔴 HOST: " ++ displayOpt (jsOrStr node.host node.provider) ++
  "\n   • Node: " ++ jsOrDefault node.node "N/A" ++
  "\n   • Allocatable: " ++ primDisplay node.allocatable "Unknown" ++
  "\n   • Allocated: " ++ primDisplay node.allocated "Unknown" ++
  "\n   • Utilization: " ++ utilizationStr node ++
  "\n   • Issue: CPU over-allocation detected\n"

/-- The per-node block of the `getAkashMemoryIssues` detail breakdown. -/
def memoryIssueBlock (node : AkashProvider) : String :=
  "\n🔴 HOST: " ++ displayOpt (jsOrStr node.host node.provider) ++
  "\n   • Node: " ++ jsOrDefault node.node "N/A" ++
  "\n   • Allocatable: " ++ primDisplay node.allocatable "Unknown" ++
  "\n   • Allocated: " ++ primDisplay node.allocated "Unknown" ++
  "\n   • Utilization: " ++ utilizationStr node ++
  "\n   • Issue: Memory over-allocation detected\n"

/-- The full report text of `getAkashCpuIssues` for a nonempty issue
list. -/
def cpuIssuesReport (nodes : List AkashProvider) : String :=
  jsTrim ("\n⚠️ AKASH CPU ALLOCATION ISSUES\n\nCPU Issues Detected: " ++
    toString nodes.length ++ "\n\nDETAILED BREAKDOWN:\n" ++
    jsJoin "\n" (nodes.map cpuIssueBlock) ++
    "\n\nSUMMARY:\n- Total nodes with CPU issues: " ++ toString nodes.length ++
    "\n- Issue type: CPU allocation exceeding allocatable limits" ++
    "\n- Impact: May affect deployment scheduling and performance" ++
    "\n\nThese CPU allocation issues require immediate attention.\n    ")

/-- The full report text of `getAkashMemoryIssues` for a nonempty issue
list. -/
def memoryIssuesReport (nodes : List AkashProvider) : String :=
  jsTrim ("\n⚠️ AKASH MEMORY ALLOCATION ISSUES\n\nMemory Issues Detected: " ++
    toString nodes.length ++ "\n\nDETAILED BREAKDOWN:\n" ++
    jsJoin "\n" (nodes.map memoryIssueBlock) ++
    "\n\nSUMMARY:\n- Total nodes with memory issues: " ++ toString nodes.length ++
    "\n- Issue type: Memory allocation exceeding allocatable limits" ++
    "\n- Impact: May affect deployment scheduling and performance" ++
    "\n\nThese memory allocation issues require immediate attention.\n    ")

/-- One search hit collected by `searchWikiContent`. -/
structure WikiSearchResult where
  page : String
  content : String
  preview : String
deriving DecidableEq

/-- One per-category row built by the loop of `getActiveMetricsSummary`. -/
structure CategoryStat where
  totalAvailable : Nat
  tested : Nat
  active : Nat
  activeRate : String
  error : Option String
deriving DecidableEq

/-! ## The effect environment

Every outbound call and every pure helper whose output no claim inspects
(JSON stringification, the clock, the large report template bodies) is a
field of this record; a handler is then a total function of the
environment.  An `Except` valued field models a call that can reject with
a message. -/

/-- Oracles for the effects and the abstracted report bodies. -/
structure Env where
  cloud : String → Except String JValue
  rawGet : String → Except String JValue
  agent : AgentNet
  stringify : JValue → String
  spaceId : String
  cloudBaseUrl : String
  apiTokenPresent : Bool
  tokenLength : Nat
  infraAnalysis : JValue → JValue → Except String JValue
  parseJsonArray : String → Except String (List String)
  categoryReport : String → String → MetricTestResults → String
  activeSummaryReport : String → Int → List String → List (String × CategoryStat) → Nat → Nat → String
  alarmsFetched : Except String (AlarmsResponse × List RoomInfo)
  detailFetch : List RoomAlarmData → List CriticalAlarm
  akashApi : String → Except String (Option (List AkashProvider))
  gpuReport : List AkashProvider → String
  downReport : List AkashProvider → String
  partialReport : List AkashProvider → String
  allIssuesReport : NetDataAlarmData → Option (List AkashProvider) → Option (List AkashProvider) → Option (List AkashProvider) → Option (List AkashProvider) → Option (List AkashProvider) → String
  wikiSearch : String → Except String (List WikiSearchResult)
  stringifySearch : List WikiSearchResult → String
  wikiPage : String → Except String (Option String)
  allWikiPages : List String
  rpcNodesBody : Except String String
  wikiPagesListBody : Except String String

/-! ## NetData tool handlers (src/services/netdata.ts) -/

/-- Embedding of `getSpaceInfo`: fetch the space list and render it; the
catch converts the failure into the error text. -/
def getSpaceInfo (env : Env) (_args : Option ToolArgs) : ToolResponse :=
  match env.cloud "/spaces" with
  | .ok d => textResponse ("NetData Space Information:\n" ++ env.stringify d)
  | .error e => textResponse ("Error fetching space info: " ++ e)

/-- Embedding of `getNodesInfo`. -/
def getNodesInfo (env : Env) (_args : Option ToolArgs) : ToolResponse :=
  match env.cloud ("/spaces/" ++ env.spaceId ++ "/rooms") with
  | .ok d => textResponse ("NetData Nodes Information:\n" ++ env.stringify d)
  | .error e => textResponse ("Error fetching nodes info: " ++ e)

/-- Embedding of `getInfrastructureOverview`; the pure analysis object
built from the two fetched bodies is abstracted as `env.infraAnalysis`. -/
def getInfrastructureOverview (env : Env) (_args : Option ToolArgs) : ToolResponse :=
  match env.cloud "/spaces" with
  | .error e => textResponse ("Error analyzing infrastructure: " ++ e)
  | .ok spacesData =>
      match env.cloud ("/spaces/" ++ env.spaceId ++ "/rooms") with
      | .error e => textResponse ("Error analyzing infrastructure: " ++ e)
      | .ok roomsData =>
          match env.infraAnalysis spacesData roomsData with
          | .error e => textResponse ("Error analyzing infrastructure: " ++ e)
          | .ok analysis =>
              textResponse ("NetData Infrastructure Analysis (ENHANCED):\n" ++
                env.stringify analysis)

/-- Embedding of `getRoomContexts`, instrumented with the list of cloud
endpoints actually fetched (second component), so that the absence of an
outbound call on the failure paths is a provable statement. -/
def getRoomContextsT (env : Env) (args : Option ToolArgs) : ToolResponse × List String :=
  let a := args.getD emptyArgs
  if !truthyStr a.room_name then
    (textResponse "Error: room_name parameter is required", [])
  else
    let rn := a.room_name.getD ""
    match roomIdsLookup rn with
    | none =>
        (textResponse ("Room \"" ++ rn ++ "\" not found. Available rooms: " ++
          jsJoin ", " roomNames), [])
    | some roomId =>
        let endpoint := "/spaces/" ++ env.spaceId ++ "/rooms/" ++ roomId ++ "/contexts"
        match env.cloud endpoint with
        | .ok contextsData =>
            let contexts :=
              match jget contextsData "results" with
              | some v => if jsTruthy v then v else contextsData
              | none => contextsData
            (textResponse ("Room Contexts for \"" ++ rn ++ "\" (" ++
              jsLengthStr contexts ++ " contexts found):\n" ++ env.stringify contexts),
             [endpoint])
        | .error e =>
            (textResponse ("Error getting room contexts: " ++ e), [endpoint])

/-- Embedding of `getRoomNodes`, instrumented like `getRoomContextsT`. -/
def getRoomNodesT (env : Env) (args : Option ToolArgs) : ToolResponse × List String :=
  let a := args.getD emptyArgs
  if !truthyStr a.room_name then
    (textResponse "Error: room_name parameter is required", [])
  else
    let rn := a.room_name.getD ""
    match roomIdsLookup rn with
    | none =>
        (textResponse ("Room \"" ++ rn ++ "\" not found. Available rooms: " ++
          jsJoin ", " roomNames), [])
    | some roomId =>
        let endpoint := "/spaces/" ++ env.spaceId ++ "/rooms/" ++ roomId ++ "/nodes"
        match env.cloud endpoint with
        | .ok nodesData =>
            (textResponse ("Room Nodes for \"" ++ rn ++ "\" (" ++
              jsLengthStr nodesData ++ " nodes found):\n" ++ env.stringify nodesData),
             [endpoint])
        | .error e =>
            (textResponse ("Error getting room nodes: " ++ e), [endpoint])

/-- Embedding of `testRoomParameter`. -/
def testRoomParameter (env : Env) (args : Option ToolArgs) : ToolResponse :=
  let a := args.getD emptyArgs
  let lookupText :=
    match a.room_name with
    | some rn => (roomIdsLookup rn).getD "Not found"
    | none => "Not found"
  textResponse ("Parameter test successful!\n\nRoom name received: " ++
    displayOpt a.room_name ++ "\nRoom ID lookup: " ++ lookupText ++
    "\nAPI token present: " ++ boolStr env.apiTokenPresent ++
    "\n\nThis confirms parameter passing works with enhanced pattern.")

/-- Embedding of `debugApiCall`. -/
def debugApiCall (env : Env) (_args : Option ToolArgs) : ToolResponse :=
  textResponse ("Debug Info: spaceId=" ++ env.spaceId ++ ", tokenPresent=" ++
    boolStr env.apiTokenPresent ++ ", baseUrl=" ++ env.cloudBaseUrl ++
    ", sandboxHost=" ++ sandboxHost ++ ", akashApiUrl=" ++ akashProviderApiUrl)

/-- Embedding of `testDirectRoomContexts`. -/
def testDirectRoomContexts (env : Env) (_args : Option ToolArgs) : ToolResponse :=
  let roomId := "016d43f2-d5c0-4a78-913c-a0bc91e245ed"
  let info : JValue := .obj [("space_id", .str env.spaceId), ("room_id", .str roomId),
    ("token_length", .num (env.tokenLength : ℚ)), ("base_url", .str env.cloudBaseUrl)]
  let url := env.cloudBaseUrl ++ "/api/v2/spaces/" ++ env.spaceId ++
    "/rooms/" ++ roomId ++ "/contexts"
  match env.rawGet url with
  | .ok resp =>
      let cnt :=
        match jget resp "results" with
        | some v => if jsTruthy v then jsLengthStr v else "unknown"
        | none => "unknown"
      textResponse ("SUCCESS: " ++ env.stringify info ++ " - Got " ++ cnt ++ " contexts")
  | .error e =>
      textResponse ("FAILED: " ++ env.stringify info ++ " - Error: " ++ e)

/-- The regex extraction of the bracketed part of the rendered contexts
response: the greedy pattern takes the text between the first opening and
the last closing square bracket, and fails when no such span exists. -/
def extractBracket (s : String) : Option String :=
  let ds := s.data
  match ds.findIdx? (fun c => c == '['), ds.reverse.findIdx? (fun c => c == ']') with
  | some i, some jr =>
      let j := ds.length - 1 - jr
      if i < j then some ⟨(ds.drop (i + 1)).take (j - (i + 1))⟩ else none
  | _, _ => none

/-- Embedding of `testCategoryMetricsActivity`: re-parse the rendered
contexts response of `getRoomContexts`, filter by category, probe the
matching contexts in batches, and render the report (body abstracted as
`env.categoryReport`). -/
def testCategoryMetricsActivity (env : Env) (args : Option ToolArgs) : ToolResponse :=
  let a := args.getD emptyArgs
  if !truthyStr a.room_name || !truthyStr a.category then
    textResponse "Error: room_name and category are required"
  else
    let rn := a.room_name.getD ""
    let cat := a.category.getD ""
    let contextsResponse := (getRoomContextsT env (some { emptyArgs with room_name := some rn })).1
    match extractBracket (firstText contextsResponse) with
    | none =>
        textResponse ("Error testing " ++ cat ++
          " metrics activity: Could not parse contexts from response")
    | some inner =>
        match env.parseJsonArray ("[" ++ inner ++ "]") with
        | .error e => textResponse ("Error testing " ++ cat ++ " metrics activity: " ++ e)
        | .ok allContexts =>
            match filterContextsByCategory allContexts cat with
            | .error e => textResponse ("Error testing " ++ cat ++ " metrics activity: " ++ e)
            | .ok categoryContexts =>
                if categoryContexts.length == 0 then
                  textResponse ("No " ++ cat ++ " contexts found in room \"" ++ rn ++ "\"")
                else
                  textResponse (env.categoryReport rn cat
                    (testMetricsInBatchesTotal env.agent categoryContexts 5))

/-- Embedding of `testNetworkMetricsActivity`: delegate to the category
tester with the network category. -/
def testNetworkMetricsActivity (env : Env) (args : Option ToolArgs) : ToolResponse :=
  let a := args.getD emptyArgs
  if !truthyStr a.room_name then textResponse "Error: room_name is required"
  else
    testCategoryMetricsActivity env
      (some { emptyArgs with room_name := a.room_name, category := some "network" })

/-- The per-category loop of `getActiveMetricsSummary`: for every category
of the static table, filter the contexts; on a nonempty match take the
first `sample_size` contexts, probe them in batches of five, and record
the counts together with the active rate
`(activeCount / tested * 100).toFixed(1)`. -/
def activeMetricsCategoryStep (env : Env) (allContexts : List String)
    (sample_size : Int) (acc : List (String × CategoryStat))
    (kv : String × List String) : List (String × CategoryStat) :=
  match filterContextsByCategory allContexts kv.1 with
  | .error e =>
      acc ++ [(kv.1, { totalAvailable := 0, tested := 0, active := 0,
                       activeRate := "0.0", error := some e })]
  | .ok categoryContexts =>
      if 0 < categoryContexts.length then
        let sample := jsSlice categoryContexts 0 sample_size
        let results := testMetricsInBatchesTotal env.agent sample 5
        acc ++ [(kv.1,
          { totalAvailable := categoryContexts.length,
            tested := results.summary.tested,
            active := results.summary.activeCount,
            activeRate := jsToFixed1 (jsMul (jsDiv
              (.num (results.summary.activeCount : ℚ))
              (.num (results.summary.tested : ℚ))) (.num 100)),
            error := none })]
      else acc

/-- The fold of the per-category body over the static category table, in
table order; the accumulated association list models the
`categoryResults` object keyed in insertion order. -/
def activeMetricsCategoryResults (env : Env) (allContexts : List String)
    (sample_size : Int) : List (String × CategoryStat) :=
  METRIC_CATEGORIES.foldl (activeMetricsCategoryStep env allContexts sample_size) []

/-- Embedding of `getActiveMetricsSummary`; the final report template is
abstracted as `env.activeSummaryReport`. -/
def getActiveMetricsSummary (env : Env) (args : Option ToolArgs) : ToolResponse :=
  let a := args.getD emptyArgs
  if !truthyStr a.room_name then textResponse "Error: room_name is required"
  else
    let rn := a.room_name.getD ""
    let sample_size := a.sample_size.getD 10
    let contextsResponse := (getRoomContextsT env (some { emptyArgs with room_name := some rn })).1
    match extractBracket (firstText contextsResponse) with
    | none =>
        textResponse "Error generating active metrics summary: Could not parse contexts from response"
    | some inner =>
        match env.parseJsonArray ("[" ++ inner ++ "]") with
        | .error e => textResponse ("Error generating active metrics summary: " ++ e)
        | .ok allContexts =>
            let categoryResults := activeMetricsCategoryResults env allContexts sample_size
            let totalActive :=
              (categoryResults.map (fun kv => if kv.2.error == none then kv.2.active else 0)).sum
            let totalTested :=
              (categoryResults.map (fun kv => if kv.2.error == none then kv.2.tested else 0)).sum
            textResponse
              (env.activeSummaryReport rn sample_size allContexts categoryResults
                totalActive totalTested)

/-! ## Akash tool handlers (src/services/akash.ts) -/

/-- Embedding of `getAkashProvidersDown`; the report template for a
nonempty list is abstracted as `env.downReport`. -/
def getAkashProvidersDown (env : Env) (_args : Option ToolArgs) : ToolResponse :=
  match env.akashApi "/providers/down" with
  | .error e => textResponse ("Error fetching down providers: " ++ e)
  | .ok none =>
      textResponse "✅ All Akash providers are currently operational - no down providers detected."
  | .ok (some []) =>
      textResponse "✅ All Akash providers are currently operational - no down providers detected."
  | .ok (some providers) => textResponse (env.downReport providers)

/-- Embedding of `getAkashGpuIssues` (the debug append to a log file is a
side effect outside the value semantics); the report template is
abstracted as `env.gpuReport`. -/
def getAkashGpuIssues (env : Env) (_args : Option ToolArgs) : ToolResponse :=
  match env.akashApi "/gpuissues" with
  | .error e => textResponse ("Error fetching GPU issues: " ++ e)
  | .ok none =>
      textResponse "✅ No GPU allocation issues detected across Akash provider network."
  | .ok (some []) =>
      textResponse "✅ No GPU allocation issues detected across Akash provider network."
  | .ok (some providers) => textResponse (env.gpuReport providers)

/-- Embedding of `getAkashCpuIssues` with the concrete report text. -/
def getAkashCpuIssues (env : Env) (_args : Option ToolArgs) : ToolResponse :=
  match env.akashApi "/issues/res/cpu" with
  | .error e => textResponse ("Error fetching CPU issues: " ++ e)
  | .ok none =>
      textResponse "✅ No CPU allocation issues detected across Akash provider network."
  | .ok (some []) =>
      textResponse "✅ No CPU allocation issues detected across Akash provider network."
  | .ok (some nodes) => textResponse (cpuIssuesReport nodes)

/-- Embedding of `getAkashMemoryIssues` with the concrete report text. -/
def getAkashMemoryIssues (env : Env) (_args : Option ToolArgs) : ToolResponse :=
  match env.akashApi "/issues/res/memory" with
  | .error e => textResponse ("Error fetching memory issues: " ++ e)
  | .ok none =>
      textResponse "✅ No memory allocation issues detected across Akash provider network."
  | .ok (some []) =>
      textResponse "✅ No memory allocation issues detected across Akash provider network."
  | .ok (some nodes) => textResponse (memoryIssuesReport nodes)

/-- Embedding of `getAkashPartialFailures`; the report template is
abstracted as `env.partialReport`. -/
def getAkashPartialFailures (env : Env) (_args : Option ToolArgs) : ToolResponse :=
  match env.akashApi "/providers/partialfailures" with
  | .error e => textResponse ("Error fetching partial failures: " ++ e)
  | .ok none =>
      textResponse "✅ No partial provider failures detected across Akash provider network."
  | .ok (some []) =>
      textResponse "✅ No partial provider failures detected across Akash provider network."
  | .ok (some providers) => textResponse (env.partialReport providers)

/-- Embedding of `getAkashAllIssuesReport`: the alarm summary never
rejects; a rejection of any provider fetch is caught and rendered (the
real `Promise.all` surfaces whichever rejection settles first; this
embedding picks them in array order).  The composite report text is
abstracted as `env.allIssuesReport`. -/
def getAkashAllIssuesReport (env : Env) (_args : Option ToolArgs) : ToolResponse :=
  let netdataAlarms := getNetDataAlarms env.alarmsFetched env.detailFetch
  match env.akashApi "/gpuissues" with
  | .error e => textResponse ("Error generating comprehensive issues report: " ++ e)
  | .ok gpu =>
  match env.akashApi "/issues/res/cpu" with
  | .error e => textResponse ("Error generating comprehensive issues report: " ++ e)
  | .ok cpu =>
  match env.akashApi "/issues/res/memory" with
  | .error e => textResponse ("Error generating comprehensive issues report: " ++ e)
  | .ok mem =>
  match env.akashApi "/providers/down" with
  | .error e => textResponse ("Error generating comprehensive issues report: " ++ e)
  | .ok down =>
  match env.akashApi "/providers/partialfailures" with
  | .error e => textResponse ("Error generating comprehensive issues report: " ++ e)
  | .ok part =>
      textResponse (env.allIssuesReport netdataAlarms gpu cpu mem down part)

/-! ## GitHub wiki tool handlers (src/services/github.ts) -/

/-- The type-error message raised by destructuring an absent arguments
object (the exact engine wording varies; only the fact that a throw
happens matters to the claims). -/
def destructureErrMsg (field : String) : String :=
  "Cannot destructure property " ++ field ++ " of undefined"

/-- Embedding of `searchWiki`.  The destructuring of `args` happens before
the try block, so an absent arguments object throws out of the handler;
everything after it is inside the catch. -/
def searchWiki (env : Env) (args : Option ToolArgs) : Except String ToolResponse :=
  match args with
  | none => .error (destructureErrMsg "query")
  | some a =>
      if !truthyStr a.query then .ok (textResponse "Error: query parameter is required")
      else
        let q := a.query.getD ""
        match env.wikiSearch q with
        | .error e => .ok (textResponse ("Error searching wiki: " ++ e))
        | .ok results =>
            if results.length == 0 then
              .ok (textResponse ("No wiki pages found containing \"" ++ q ++ "\""))
            else
              .ok (textResponse ("Found " ++ toString results.length ++
                " wiki page(s) containing \"" ++ q ++ "\":\n\n" ++
                env.stringifySearch results))

/-- Embedding of `getWikiPage`; like `searchWiki` the argument
destructuring precedes the try block. -/
def getWikiPage (env : Env) (args : Option ToolArgs) : Except String ToolResponse :=
  match args with
  | none => .error (destructureErrMsg "page_name")
  | some a =>
      if !truthyStr a.page_name then .ok (textResponse "Error: page_name parameter is required")
      else
        let pn := a.page_name.getD ""
        match env.wikiPage pn with
        | .error e => .ok (textResponse ("Error getting wiki page: " ++ e))
        | .ok content =>
            if !truthyStr content then
              let pageList :=
                if 0 < env.allWikiPages.length then jsJoin ", " env.allWikiPages
                else "Home, Overview, DevOps-Phone-Numbers"
              .ok (textResponse ("Wiki page \"" ++ pn ++ "\" not found. Available pages: " ++
                pageList))
            else
              .ok (textResponse ("Content from wiki page \"" ++ pn ++ "\":\n\n" ++
                content.getD ""))

/-- Embedding of `listRpcNodes`; its whole body sits inside the try, so
it never throws (body abstracted as `env.rpcNodesBody`). -/
def listRpcNodes (env : Env) (_args : Option ToolArgs) : ToolResponse :=
  match env.rpcNodesBody with
  | .ok t => textResponse ("RPC Nodes Information:\n\n" ++ t)
  | .error e => textResponse ("Error extracting RPC nodes: " ++ e)

/-- Embedding of `getWikiPagesList`; its whole body sits inside the try
(body abstracted as `env.wikiPagesListBody`). -/
def getWikiPagesList (env : Env) (_args : Option ToolArgs) : ToolResponse :=
  match env.wikiPagesListBody with
  | .ok t => textResponse t
  | .error e =>
      textResponse ("Error listing wiki pages: " ++ e ++
        "\n\nTry common pages: Home, Overview, DevOps-Phone-Numbers")

/-! ## Tool registries and dispatch (src/services/index.ts, src/index.ts) -/

/-- The names of the NetData tools, in the order of `getTools()`. -/
def netdataToolNames : List String :=
  ["get_space_info", "get_nodes_info", "get_infrastructure_overview",
   "get_room_contexts", "get_room_nodes", "test_room_parameter",
   "debug_api_call", "test_direct_room_contexts",
   "test_category_metrics_activity", "test_network_metrics_activity",
   "get_active_metrics_summary"]

/-- The names of the Akash tools, in the order of `getTools()`. -/
def akashToolNames : List String :=
  ["get_akash_providers_down", "get_akash_gpu_issues", "get_akash_cpu_issues",
   "get_akash_memory_issues", "get_akash_partial_failures",
   "get_akash_all_issues_report"]

/-- The names of the GitHub wiki tools, in the order of `getTools()`. -/
def githubToolNames : List String :=
  ["search_wiki", "get_wiki_page", "list_rpc_nodes", "get_wiki_pages_list"]

/-- The unioned tool name set of `getAllTools()`. -/
def allToolNames : List String := netdataToolNames ++ akashToolNames ++ githubToolNames

/-- The switch of the NetData `handleToolCall`: a registered name routes
to its handler, the default throws the unknown-tool message. -/
def netdataHandleToolCall (env : Env) (name : String) (args : Option ToolArgs) :
    Except String ToolResponse :=
  if name == "get_space_info" then .ok (getSpaceInfo env args)
  else if name == "get_nodes_info" then .ok (getNodesInfo env args)
  else if name == "get_infrastructure_overview" then .ok (getInfrastructureOverview env args)
  else if name == "get_room_contexts" then .ok (getRoomContextsT env args).1
  else if name == "get_room_nodes" then .ok (getRoomNodesT env args).1
  else if name == "test_room_parameter" then .ok (testRoomParameter env args)
  else if name == "debug_api_call" then .ok (debugApiCall env args)
  else if name == "test_direct_room_contexts" then .ok (testDirectRoomContexts env args)
  else if name == "test_category_metrics_activity" then .ok (testCategoryMetricsActivity env args)
  else if name == "test_network_metrics_activity" then .ok (testNetworkMetricsActivity env args)
  else if name == "get_active_metrics_summary" then .ok (getActiveMetricsSummary env args)
  else .error ("Unknown NetData tool: " ++ name)

/-- The switch of the Akash `handleToolCall`. -/
def akashHandleToolCall (env : Env) (name : String) (args : Option ToolArgs) :
    Except String ToolResponse :=
  if name == "get_akash_providers_down" then .ok (getAkashProvidersDown env args)
  else if name == "get_akash_gpu_issues" then .ok (getAkashGpuIssues env args)
  else if name == "get_akash_cpu_issues" then .ok (getAkashCpuIssues env args)
  else if name == "get_akash_memory_issues" then .ok (getAkashMemoryIssues env args)
  else if name == "get_akash_partial_failures" then .ok (getAkashPartialFailures env args)
  else if name == "get_akash_all_issues_report" then .ok (getAkashAllIssuesReport env args)
  else .error ("Unknown Akash tool: " ++ name)

/-- The switch of the GitHub `handleToolCall`; the two handlers that
destructure their arguments before their try block can throw. -/
def githubHandleToolCall (env : Env) (name : String) (args : Option ToolArgs) :
    Except String ToolResponse :=
  if name == "search_wiki" then searchWiki env args
  else if name == "get_wiki_page" then getWikiPage env args
  else if name == "list_rpc_nodes" then .ok (listRpcNodes env args)
  else if name == "get_wiki_pages_list" then .ok (getWikiPagesList env args)
  else .error ("Unknown GitHub tool: " ++ name)

/-- A failure escaping the service-level dispatcher: either the explicit
method-not-found error it throws itself, or an exception thrown from a
service handler. -/
inductive DispatchFault where
  | methodNotFound (msg : String) : DispatchFault
  | thrown (msg : String) : DispatchFault
deriving DecidableEq

/-- Embedding of the service-level `handleToolCall`
(src/services/index.ts): membership in each registry is tested in order,
an unregistered name raises the method-not-found error. -/
def handleToolCall (env : Env) (name : String) (args : Option ToolArgs) :
    Except DispatchFault ToolResponse :=
  if netdataToolNames.contains name then
    (netdataHandleToolCall env name args).mapError DispatchFault.thrown
  else if akashToolNames.contains name then
    (akashHandleToolCall env name args).mapError DispatchFault.thrown
  else if githubToolNames.contains name then
    (githubHandleToolCall env name args).mapError DispatchFault.thrown
  else .error (.methodNotFound ("Unknown tool: " ++ name))

/-- A protocol-level fault surfaced to the transport. -/
inductive ProtocolFault where
  | methodNotFound (msg : String) : ProtocolFault
  | internalError (msg : String) : ProtocolFault
deriving DecidableEq

/-- Embedding of the server request handler (src/index.ts): an McpError is
rethrown as is, any other thrown value is wrapped into an internal
protocol error. -/
def serverCallTool (env : Env) (name : String) (args : Option ToolArgs) :
    Except ProtocolFault ToolResponse :=
  match handleToolCall env name args with
  | .ok r => .ok r
  | .error (.methodNotFound m) => .error (.methodNotFound m)
  | .error (.thrown m) =>
      .error (.internalError ("Error executing tool " ++ name ++ ": " ++ m))

/-- Whether an Except value is a success. -/
def isOkResult {ε α : Type} : Except ε α → Bool
  | .ok _ => true
  | .error _ => false

/-! ## Concrete oracles used by witnesses and counterexamples -/

/-- An agent network on which every probe fails with an empty message. -/
def netEmptyMsg : AgentNet := fun _ => .error ""

/-- An agent network on which every probe fails with a transport
message. -/
def netDown : AgentNet := fun _ => .error "connect ETIMEDOUT"

/-- A fully offline environment, used to instantiate theorems at concrete
inputs. -/
def env0 : Env :=
  { cloud := fun _ => .error "offline"
    rawGet := fun _ => .error "offline"
    agent := netDown
    stringify := fun _ => ""
    spaceId := "4e5af321-fd71-4cd7-8456-aa96d7029ab8"
    cloudBaseUrl := "https://app.netdata.cloud"
    apiTokenPresent := false
    tokenLength := 0
    infraAnalysis := fun _ _ => .error "offline"
    parseJsonArray := fun _ => .error "offline"
    categoryReport := fun _ _ _ => ""
    activeSummaryReport := fun _ _ _ _ _ _ => ""
    alarmsFetched := .error "offline"
    detailFetch := fun _ => []
    akashApi := fun _ => .error "offline"
    gpuReport := fun _ => ""
    downReport := fun _ => ""
    partialReport := fun _ => ""
    allIssuesReport := fun _ _ _ _ _ _ => ""
    wikiSearch := fun _ => .error "offline"
    stringifySearch := fun _ => ""
    wikiPage := fun _ => .error "offline"
    allWikiPages := []
    rpcNodesBody := .error "offline"
    wikiPagesListBody := .error "offline" }

/-! ## Specification-side definitions used in theorem statements -/

/-- Substring containment: `sub` occurs contiguously inside `s`. -/
def containsStr (s sub : String) : Prop := ∃ a b, a ++ (sub ++ b) = s

/-- The retention condition of the alarm loop, read off the source: at
least one nonzero counter and a room-ID lookup that resolves to the
sentinel name All nodes. -/
def retainPred (roomsData : List RoomInfo) (room : RoomAlarmEntry) : Bool :=
  (decide (0 < entryWarnings room) || decide (0 < entryCritical room) ||
    decide (0 < entryUnreachable room)) &&
  (roomIdToName roomsData room.roomID == some "All nodes")

/-- The record the alarm loop builds for a retained entry. -/
def mkRoomData (roomsData : List RoomInfo) (room : RoomAlarmEntry) : RoomAlarmData :=
  { roomID := room.roomID,
    roomName := (roomIdToName roomsData room.roomID).getD "",
    warnings := entryWarnings room,
    critical := entryCritical room,
    unreachable := entryUnreachable room }

/-! ## String lemmas -/

theorem str_nil_append (s : String) : "" ++ s = s := by
  ext1; simp [String.data_append]

theorem str_append_nil (s : String) : s ++ "" = s := by
  ext1; simp [String.data_append]

theorem containsStr_appendL (s t sub : String) (h : containsStr t sub) :
    containsStr (s ++ t) sub := by
  obtain ⟨a, b, hab⟩ := h
  exact ⟨s ++ a, b, by rw [String.append_assoc, hab]⟩

theorem jsJoin_contains (sep x : String) :
    ∀ (l : List String), x ∈ l → containsStr (jsJoin sep l) x := by
  intro l
  induction l with
  | nil => intro h; cases h
  | cons y t ih =>
    intro hm
    cases t with
    | nil =>
      have hx : x = y := by simpa using hm
      subst hx
      exact ⟨"", "", by rw [str_nil_append, str_append_nil, jsJoin]⟩
    | cons z t2 =>
      rcases List.mem_cons.mp hm with h | h
      · subst h
        refine ⟨"", sep ++ jsJoin sep (z :: t2), ?_⟩
        rw [str_nil_append]
        simp [jsJoin, String.append_assoc]
      · obtain ⟨a, b, hab⟩ := ih h
        refine ⟨(y ++ sep) ++ a, b, ?_⟩
        rw [String.append_assoc, hab]
        simp [jsJoin, String.append_assoc]

theorem firstText_textResponse (t : String) : firstText (textResponse t) = t := rfl

theorem notFoundText_contains (name avail : String) :
    containsStr ("Room \"" ++ name ++ "\" not found. Available rooms: " ++ avail)
      "not found" := by
  refine ⟨"Room \"" ++ name ++ "\" ", ". Available rooms: " ++ avail, ?_⟩
  have l1 : ("\" " : String) ++ "not found" = "\" not found" := rfl
  have l2 : ("\" not found" : String) ++ ". Available rooms: " =
      "\" not found. Available rooms: " := rfl
  have hseg : ("\" " : String) ++ ("not found" ++ (". Available rooms: " ++ avail)) =
      "\" not found. Available rooms: " ++ avail := by
    rw [← String.append_assoc, l1, ← String.append_assoc, l2]
  simp only [String.append_assoc]
  rw [hseg]

/-! ## C3 and C6: alarm error path and room lookup failures -/

/-- C3: when either primary fetch of getNetDataAlarms fails, the returned
summary has every total equal to zero, empty list fields, and a non-null
error message; the function returns instead of raising. -/
theorem c3_alarm_error_path (e : String)
    (detailFetch : List RoomAlarmData → List CriticalAlarm) :
    getNetDataAlarms (.error e) detailFetch =
      { error := some e, totals := zeroAlarmTotals,
        roomsWithAlarms := [], criticalAlarmDetails := [], allRooms := [] } ∧
    (getNetDataAlarms (.error e) detailFetch).error ≠ none ∧
    (getNetDataAlarms (.error e) detailFetch).totals.warnings = 0 ∧
    (getNetDataAlarms (.error e) detailFetch).totals.critical = 0 ∧
    (getNetDataAlarms (.error e) detailFetch).totals.unreachable = 0 ∧
    (getNetDataAlarms (.error e) detailFetch).totals.totalRooms = 0 ∧
    (getNetDataAlarms (.error e) detailFetch).totals.roomsWithIssues = 0 := by
  refine ⟨rfl, by simp [getNetDataAlarms], rfl, rfl, rfl, rfl, rfl⟩

/-- C5: on a registered category, filterContextsByCategory succeeds with
exactly the identifiers that start with at least one of the category
prefixes, as a subsequence of the input: the result is the order-keeping
filter, every returned identifier matches some prefix, and an identifier
of the input is returned exactly when it matches some prefix. -/
theorem c5_category_filter (contexts : List String) (category : String)
    (ps : List String) (hc : categoryLookup category = some ps) :
    filterContextsByCategory contexts category =
      .ok (contexts.filter (fun c => ps.any (fun p => jsStartsWith c p))) ∧
    (contexts.filter (fun c => ps.any (fun p => jsStartsWith c p))).Sublist contexts ∧
    (∀ x ∈ contexts.filter (fun c => ps.any (fun p => jsStartsWith c p)),
      ∃ p ∈ ps, jsStartsWith x p = true) ∧
    (∀ x, x ∈ contexts.filter (fun c => ps.any (fun p => jsStartsWith c p)) ↔
      (x ∈ contexts ∧ ∃ p ∈ ps, jsStartsWith x p = true)) := by
  refine ⟨by simp [filterContextsByCategory, hc], List.filter_sublist contexts, ?_, ?_⟩
  · intro x hx
    have := (List.mem_filter.mp hx).2
    simpa [List.any_eq_true] using this
  · intro x
    constructor
    · intro hx
      have h2 := List.mem_filter.mp hx
      exact ⟨h2.1, by simpa [List.any_eq_true] using h2.2⟩
    · intro ⟨h1, h2⟩
      exact List.mem_filter.mpr ⟨h1, by simpa [List.any_eq_true] using h2⟩

/-- Witness for c5_category_filter at the registered category disk. -/
theorem c5_category_filter_w :
    categoryLookup "disk" = some ["disk.", "system.io"] ∧
    (filterContextsByCategory ["disk.io", "foo.bar", "system.io"] "disk" =
      .ok (["disk.io", "foo.bar", "system.io"].filter
        (fun c => ["disk.", "system.io"].any (fun p => jsStartsWith c p))) ∧
    (["disk.io", "foo.bar", "system.io"].filter
        (fun c => ["disk.", "system.io"].any (fun p => jsStartsWith c p))).Sublist
      ["disk.io", "foo.bar", "system.io"] ∧
    (∀ x ∈ ["disk.io", "foo.bar", "system.io"].filter
        (fun c => ["disk.", "system.io"].any (fun p => jsStartsWith c p)),
      ∃ p ∈ ["disk.", "system.io"], jsStartsWith x p = true) ∧
    (∀ x, x ∈ ["disk.io", "foo.bar", "system.io"].filter
        (fun c => ["disk.", "system.io"].any (fun p => jsStartsWith c p)) ↔
      (x ∈ ["disk.io", "foo.bar", "system.io"] ∧
        ∃ p ∈ ["disk.", "system.io"], jsStartsWith x p = true))) :=
  ⟨by decide,
   c5_category_filter ["disk.io", "foo.bar", "system.io"] "disk"
     ["disk.", "system.io"] (by decide)⟩

/-- C6: a room name that is truthy but absent from the static room table
makes both room-lookup handlers answer without any outbound call (the
fetched-endpoint trace stays empty), with a text that contains the words
not found and every registered room name. -/
theorem c6_room_not_found (env : Env) (name : String)
    (hname : name ≠ "") (hlook : roomIdsLookup name = none) :
    (getRoomContextsT env (some { emptyArgs with room_name := some name })).2 = [] ∧
    containsStr (firstText
      (getRoomContextsT env (some { emptyArgs with room_name := some name })).1)
      "not found" ∧
    (∀ r ∈ roomNames, containsStr (firstText
      (getRoomContextsT env (some { emptyArgs with room_name := some name })).1) r) ∧
    (getRoomNodesT env (some { emptyArgs with room_name := some name })).2 = [] ∧
    containsStr (firstText
      (getRoomNodesT env (some { emptyArgs with room_name := some name })).1)
      "not found" ∧
    (∀ r ∈ roomNames, containsStr (firstText
      (getRoomNodesT env (some { emptyArgs with room_name := some name })).1) r) := by
  have htr : truthyStr (some name) = true := by
    simp [truthyStr, hname]
  have hctx : getRoomContextsT env (some { emptyArgs with room_name := some name }) =
      (textResponse ("Room \"" ++ name ++ "\" not found. Available rooms: " ++
        jsJoin ", " roomNames), []) := by
    simp [getRoomContextsT, htr, hlook]
  have hnod : getRoomNodesT env (some { emptyArgs with room_name := some name }) =
      (textResponse ("Room \"" ++ name ++ "\" not found. Available rooms: " ++
        jsJoin ", " roomNames), []) := by
    simp [getRoomNodesT, htr, hlook]
  rw [hctx, hnod]
  refine ⟨rfl, ?_, ?_, rfl, ?_, ?_⟩ <;>
    simp only [firstText_textResponse]
  · exact notFoundText_contains name (jsJoin ", " roomNames)
  · intro r hr
    exact containsStr_appendL _ _ _ (jsJoin_contains ", " r roomNames hr)
  · exact notFoundText_contains name (jsJoin ", " roomNames)
  · intro r hr
    exact containsStr_appendL _ _ _ (jsJoin_contains ", " r roomNames hr)

/-- Witness for c6_room_not_found at the unregistered name nope. -/
theorem c6_room_not_found_w :
    (getRoomContextsT env0 (some { emptyArgs with room_name := some "nope" })).2 = [] ∧
    containsStr (firstText
      (getRoomContextsT env0 (some { emptyArgs with room_name := some "nope" })).1)
      "not found" ∧
    (∀ r ∈ roomNames, containsStr (firstText
      (getRoomContextsT env0 (some { emptyArgs with room_name := some "nope" })).1) r) ∧
    (getRoomNodesT env0 (some { emptyArgs with room_name := some "nope" })).2 = [] ∧
    containsStr (firstText
      (getRoomNodesT env0 (some { emptyArgs with room_name := some "nope" })).1)
      "not found" ∧
    (∀ r ∈ roomNames, containsStr (firstText
      (getRoomNodesT env0 (some { emptyArgs with room_name := some "nope" })).1) r) :=
  c6_room_not_found env0 "nope" (by decide) (by decide)

/-! ## Lemmas about the batched prober -/

theorem jsSlice_zero {α : Type} (xs : List α) : jsSlice xs 0 0 = [] := by
  simp [jsSlice]

theorem jsSlice_pos {α : Type} (xs : List α) (i bs : Int) (hi : 0 ≤ i) (hbs : 1 ≤ bs) :
    jsSlice xs i (i + bs) = (xs.drop i.toNat).take bs.toNat := by
  unfold jsSlice
  have h1 : ¬ i < 0 := by omega
  have h2 : ¬ i + bs < 0 := by omega
  simp only [h1, h2, if_false]
  by_cases hc : i < (xs.length : Int)
  · have hb : (min i (xs.length : Int)).toNat = i.toNat := by omega
    have he : (min (i + bs) (xs.length : Int)).toNat =
        min (i.toNat + bs.toNat) xs.length := by omega
    rw [hb, he]
    rw [List.take_eq_take]
    have hlen : (xs.drop i.toNat).length = xs.length - i.toNat := List.length_drop _ _
    omega
  · have hb : (min i (xs.length : Int)).toNat = xs.length := by omega
    have hd2 : xs.drop i.toNat = [] := List.drop_eq_nil_of_le (by omega)
    rw [hb, List.drop_length, hd2]
    simp

theorem jsSlice_subset {α : Type} (xs : List α) (b e : Int) : jsSlice xs b e ⊆ xs := by
  unfold jsSlice
  intro x hx
  exact List.drop_subset _ _ (List.take_subset _ _ hx)

theorem testAux_spec (net : AgentNet) (cs : List String) (bs : Int) (hbs : 1 ≤ bs) :
    ∀ (fuel : Nat) (i : Nat) (acc : MetricTestResults × List (List String)),
      cs.length - i < fuel →
      ∃ ts, testMetricsInBatchesAux net cs bs fuel (i : Int) acc =
          some (((cs.drop i).map (fun c => queryAgentMetric net c)).foldl categorize acc.1,
                acc.2 ++ ts) ∧
        ts.flatten = cs.drop i ∧
        (∀ b ∈ ts, b ≠ [] ∧ b.length ≤ bs.toNat) ∧
        (∀ b ∈ ts.dropLast, b.length = bs.toNat) := by
  intro fuel
  induction fuel with
  | zero => intro i acc h; omega
  | succ fuel ih =>
    intro i acc h
    by_cases hc : (i : Int) < (cs.length : Int)
    · have hc' : i < cs.length := by exact_mod_cast hc
      have hbs1 : 1 ≤ bs.toNat := by omega
      have hbatch : jsSlice cs (i : Int) ((i : Int) + bs) = (cs.drop i).take bs.toNat := by
        simpa using jsSlice_pos cs (i : Int) bs (by omega) hbs
      have hidx : (i : Int) + bs = ((i + bs.toNat : Nat) : Int) := by push_cast; omega
      have hdrop : (cs.drop i).drop bs.toNat = cs.drop (i + bs.toNat) := by
        rw [List.drop_drop]
      have hsplit : (cs.drop i).take bs.toNat ++ cs.drop (i + bs.toNat) = cs.drop i := by
        rw [← hdrop, List.take_append_drop]
      set batch := (cs.drop i).take bs.toNat with hbdef
      obtain ⟨ts, hrun, hjoin, hmem, hlast⟩ :=
        ih (i + bs.toNat)
          ((batch.map (fun c => queryAgentMetric net c)).foldl categorize acc.1,
            acc.2 ++ [batch])
          (by omega)
      refine ⟨batch :: ts, ?_, ?_, ?_, ?_⟩
      · unfold testMetricsInBatchesAux
        rw [if_pos hc, hbatch, hidx, hrun]
        congr 1
        dsimp only
        rw [Prod.mk.injEq]
        constructor
        · rw [← hsplit, List.map_append, List.foldl_append]
        · rw [List.append_assoc, List.singleton_append]
      · rw [List.flatten_cons, hjoin, hsplit]
      · intro b hb
        rcases List.mem_cons.mp hb with hb1 | hb2
        · subst hb1
          constructor
          · have hne : cs.drop i ≠ [] := by
              intro hnil
              have := List.drop_eq_nil_iff.mp hnil
              omega
            intro hnil
            rcases List.take_eq_nil_iff.mp hnil with h' | h'
            · omega
            · exact hne h'
          · calc batch.length = min bs.toNat (cs.drop i).length := List.length_take _ _
              _ ≤ bs.toNat := min_le_left _ _
        · exact hmem b hb2
      · intro b hb
        cases ts with
        | nil => simp at hb
        | cons c2 ts2 =>
          rw [List.dropLast_cons₂] at hb
          rcases List.mem_cons.mp hb with hb1 | hb2
          · subst hb1
            have hne2 : c2 ≠ [] := (hmem c2 (List.mem_cons_self _ _)).1
            have hjne : cs.drop (i + bs.toNat) ≠ [] := by
              rw [← hjoin]
              simp only [List.flatten_cons]
              intro hnil
              exact hne2 (List.append_eq_nil.mp hnil).1
            have hlt : i + bs.toNat < cs.length := by
              by_contra hge
              exact hjne (List.drop_eq_nil_of_le (by omega))
            have : batch.length = min bs.toNat (cs.drop i).length := List.length_take _ _
            have hdl : (cs.drop i).length = cs.length - i := List.length_drop _ _
            omega
          · exact hlast b hb2
    · have hge : cs.length ≤ i := by
        by_contra hlt
        exact hc (by exact_mod_cast Nat.lt_of_not_le (fun hle => hlt (by omega)))
      have hnil : cs.drop i = [] := List.drop_eq_nil_of_le hge
      refine ⟨[], ?_, by simp [hnil], by simp, by simp⟩
      unfold testMetricsInBatchesAux
      rw [if_neg hc, hnil]
      simp

theorem testMetrics_run (net : AgentNet) (cs : List String) (bs : Int) (hbs : 1 ≤ bs) :
    ∃ ts, testMetricsInBatches net cs bs =
        some ((cs.map (fun c => queryAgentMetric net c)).foldl categorize (initialResults cs),
          ts) ∧
      ts.flatten = cs ∧ (∀ b ∈ ts, b ≠ [] ∧ b.length ≤ bs.toNat) ∧
      (∀ b ∈ ts.dropLast, b.length = bs.toNat) := by
  obtain ⟨ts, h1, h2, h3, h4⟩ :=
    testAux_spec net cs bs hbs (cs.length + 1) 0 (initialResults cs, []) (by omega)
  refine ⟨ts, ?_, by simpa using h2, h3, h4⟩
  unfold testMetricsInBatches
  simpa using h1

theorem testAux_diverges (net : AgentNet) (cs : List String) (bs : Int)
    (hbs : bs ≤ 0) (hcs : cs ≠ []) :
    ∀ (fuel : Nat) (i : Int), i ≤ 0 →
      ∀ acc, testMetricsInBatchesAux net cs bs fuel i acc = none := by
  intro fuel
  induction fuel with
  | zero => intro i hi acc; rfl
  | succ fuel ih =>
    intro i hi acc
    have hlen : 0 < cs.length := List.length_pos.mpr hcs
    have hlen2 : (1 : Int) ≤ (cs.length : Int) := by exact_mod_cast hlen
    have hc : i < (cs.length : Int) := by omega
    unfold testMetricsInBatchesAux
    rw [if_pos hc]
    exact ih (i + bs) (by omega) _

theorem foldl_categorize_spec :
    ∀ (rs : List MetricResult) (acc : MetricTestResults),
      (rs.foldl categorize acc).active = acc.active ++ rs.filter isActiveRes ∧
      (rs.foldl categorize acc).inactive = acc.inactive ++ rs.filter isInactiveRes ∧
      (rs.foldl categorize acc).errors = acc.errors ++ rs.filter isErrored ∧
      (rs.foldl categorize acc).summary.total = acc.summary.total ∧
      (rs.foldl categorize acc).summary.tested = acc.summary.tested + rs.length ∧
      (rs.foldl categorize acc).summary.activeCount
        = acc.summary.activeCount + (rs.filter isActiveRes).length ∧
      (rs.foldl categorize acc).summary.inactiveCount
        = acc.summary.inactiveCount + (rs.filter isInactiveRes).length ∧
      (rs.foldl categorize acc).summary.errorCount
        = acc.summary.errorCount + (rs.filter isErrored).length := by
  intro rs
  induction rs with
  | nil => intro acc; simp
  | cons r t ih =>
    intro acc
    obtain ⟨h1, h2, h3, h4, h5, h6, h7, h8⟩ := ih (categorize acc r)
    rw [List.foldl_cons]
    cases he : truthyStr r.error with
    | true =>
      have hcat : categorize acc r =
          { acc with
            errors := acc.errors ++ [r]
            summary := { acc.summary with
                         tested := acc.summary.tested + 1
                         errorCount := acc.summary.errorCount + 1 } } := by
        simp [categorize, he]
      have hfe : isErrored r = true := by simp [isErrored, he]
      have hfa : isActiveRes r = false := by simp [isActiveRes, he]
      have hfi : isInactiveRes r = false := by simp [isInactiveRes, he]
      refine ⟨?_, ?_, ?_, ?_, ?_, ?_, ?_, ?_⟩
      · rw [h1, hcat]; simp [List.filter_cons, hfa]
      · rw [h2, hcat]; simp [List.filter_cons, hfi]
      · rw [h3, hcat]; simp [List.filter_cons, hfe, List.append_assoc]
      · rw [h4, hcat]
      · rw [h5, hcat]; simp; omega
      · rw [h6, hcat]; simp [List.filter_cons, hfa]
      · rw [h7, hcat]; simp [List.filter_cons, hfi]
      · rw [h8, hcat]; simp [List.filter_cons, hfe]; omega
    | false =>
      cases ha : r.active with
      | true =>
        have hcat : categorize acc r =
            { acc with
              active := acc.active ++ [r]
              summary := { acc.summary with
                           tested := acc.summary.tested + 1
                           activeCount := acc.summary.activeCount + 1 } } := by
          simp [categorize, he, ha]
        have hfe : isErrored r = false := by simp [isErrored, he]
        have hfa : isActiveRes r = true := by simp [isActiveRes, he, ha]
        have hfi : isInactiveRes r = false := by simp [isInactiveRes, he, ha]
        refine ⟨?_, ?_, ?_, ?_, ?_, ?_, ?_, ?_⟩
        · rw [h1, hcat]; simp [List.filter_cons, hfa, List.append_assoc]
        · rw [h2, hcat]; simp [List.filter_cons, hfi]
        · rw [h3, hcat]; simp [List.filter_cons, hfe]
        · rw [h4, hcat]
        · rw [h5, hcat]; simp; omega
        · rw [h6, hcat]; simp [List.filter_cons, hfa]; omega
        · rw [h7, hcat]; simp [List.filter_cons, hfi]
        · rw [h8, hcat]; simp [List.filter_cons, hfe]
      | false =>
        have hcat : categorize acc r =
            { acc with
              inactive := acc.inactive ++ [r]
              summary := { acc.summary with
                           tested := acc.summary.tested + 1
                           inactiveCount := acc.summary.inactiveCount + 1 } } := by
          simp [categorize, he, ha]
        have hfe : isErrored r = false := by simp [isErrored, he]
        have hfa : isActiveRes r = false := by simp [isActiveRes, he, ha]
        have hfi : isInactiveRes r = true := by simp [isInactiveRes, he, ha]
        refine ⟨?_, ?_, ?_, ?_, ?_, ?_, ?_, ?_⟩
        · rw [h1, hcat]; simp [List.filter_cons, hfa]
        · rw [h2, hcat]; simp [List.filter_cons, hfi, List.append_assoc]
        · rw [h3, hcat]; simp [List.filter_cons, hfe]
        · rw [h4, hcat]
        · rw [h5, hcat]; simp; omega
        · rw [h6, hcat]; simp [List.filter_cons, hfa]
        · rw [h7, hcat]; simp [List.filter_cons, hfi]; omega
        · rw [h8, hcat]; simp [List.filter_cons, hfe]

theorem queryAgent_active_error (net : AgentNet) (c : String) :
    (queryAgentMetric net c).active = true → (queryAgentMetric net c).error = none := by
  unfold queryAgentMetric
  cases h : net (agentDataUrl sandboxHost c (-300)) with
  | ok resp =>
      simp only [h]
      cases hd : resp.data with
      | some rows =>
          simp only [hd]
          cases rows <;> simp
      | none => simp [hd]
  | error m => simp [h]

theorem isErrored_spec (r : MetricResult) :
    isErrored r = true ↔ ∃ m, r.error = some m ∧ m ≠ "" := by
  cases he : r.error with
  | none => simp [isErrored, truthyStr, he]
  | some m => simp [isErrored, truthyStr, he]

theorem isInactiveRes_spec (r : MetricResult) :
    isInactiveRes r = true ↔
      r.active = false ∧ (r.error = none ∨ r.error = some "") := by
  cases he : r.error with
  | none => cases ha : r.active <;> simp [isInactiveRes, truthyStr, he, ha]
  | some m =>
      cases ha : r.active <;>
        simp [isInactiveRes, truthyStr, he, ha]

theorem isActiveRes_spec (r : MetricResult) :
    isActiveRes r = true ↔
      r.active = true ∧ (r.error = none ∨ r.error = some "") := by
  cases he : r.error with
  | none => cases ha : r.active <;> simp [isActiveRes, truthyStr, he, ha]
  | some m =>
      cases ha : r.active <;>
        simp [isActiveRes, truthyStr, he, ha]

theorem classification_trichotomy (r : MetricResult) :
    (isErrored r = true ∨ isActiveRes r = true ∨ isInactiveRes r = true) ∧
    ¬(isErrored r = true ∧ isActiveRes r = true) ∧
    ¬(isErrored r = true ∧ isInactiveRes r = true) ∧
    ¬(isActiveRes r = true ∧ isInactiveRes r = true) := by
  cases he : truthyStr r.error <;> cases ha : r.active <;>
    simp [isErrored, isActiveRes, isInactiveRes, he, ha]

theorem filter_three_length (l : List MetricResult) :
    (l.filter isActiveRes).length + (l.filter isInactiveRes).length +
      (l.filter isErrored).length = l.length := by
  induction l with
  | nil => simp
  | cons r t ih =>
      cases he : truthyStr r.error <;> cases ha : r.active <;>
        simp [List.filter_cons, isErrored, isActiveRes, isInactiveRes, he, ha] <;>
        omega

/-! ## C1: corrected batching claim, divergence counterexample -/

/-- C1 counterexample: with the nonempty input consisting of the single
identifier a and batchSize 0, the chunking loop of testMetricsInBatches
never returns: no amount of fuel makes the loop evaluator produce a
result, so there is no single giant batch and no returned summary, contrary
to the claim for batchSize at most 0. -/
theorem c1_batching_cex :
    testMetricsInBatches netDown ["a"] 0 = none ∧
    ¬ ∃ (fuel : Nat) (res : MetricTestResults × List (List String)),
        testMetricsInBatchesAux netDown ["a"] 0 fuel 0
          (initialResults ["a"], []) = some res := by
  constructor
  · exact testAux_diverges netDown ["a"] 0 (by decide) (by decide) _ 0 (by decide) _
  · rintro ⟨fuel, res, hres⟩
    rw [testAux_diverges netDown ["a"] 0 (by decide) (by decide) fuel 0 (by decide)] at hres
    cases hres

/-- C1 (amended): for every batchSize of at least 1 the prober terminates,
the processed batches are consecutive chunks whose concatenation is the
input, every chunk except possibly the last has exactly batchSize
elements, and the returned summary counts every input identifier as
tested; the empty input returns the zero-filled summary for every
batchSize; for batchSize at most 0 and a nonempty input the loop never
terminates. -/
theorem c1_batching_amended (net : AgentNet) (cs : List String) (bs : Int) :
    (1 ≤ bs → ∃ R ts, testMetricsInBatches net cs bs = some (R, ts) ∧
      R.summary.tested = cs.length ∧ R.summary.total = cs.length ∧
      ts.flatten = cs ∧
      (∀ b ∈ ts, b ≠ [] ∧ b.length ≤ bs.toNat) ∧
      (∀ b ∈ ts.dropLast, b.length = bs.toNat)) ∧
    (cs = [] → testMetricsInBatches net cs bs = some (initialResults [], [])) ∧
    (bs ≤ 0 → cs ≠ [] →
      ∀ (fuel : Nat) (acc : MetricTestResults × List (List String)),
        testMetricsInBatchesAux net cs bs fuel 0 acc = none) := by
  refine ⟨?_, ?_, ?_⟩
  · intro hbs
    obtain ⟨ts, h1, h2, h3, h4⟩ := testMetrics_run net cs bs hbs
    obtain ⟨_, _, _, ht, htested, _, _, _⟩ :=
      foldl_categorize_spec (cs.map (fun c => queryAgentMetric net c)) (initialResults cs)
    refine ⟨_, ts, h1, ?_, ?_, h2, h3, h4⟩
    · rw [htested]; simp [initialResults]
    · rw [ht]; simp [initialResults]
  · intro hnil
    subst hnil
    rfl
  · intro hbs hcs fuel acc
    exact testAux_diverges net cs bs hbs hcs fuel 0 (by omega) acc

/-- Witness for c1_batching_amended: six identifiers in batches of two
give three full chunks, and the degenerate inputs instantiate the other
two conjuncts. -/
theorem c1_batching_w :
    (∃ R ts, testMetricsInBatches netDown ["a", "b", "c", "d", "e", "f"] 2 = some (R, ts) ∧
      R.summary.tested = (["a", "b", "c", "d", "e", "f"] : List String).length ∧
      R.summary.total = (["a", "b", "c", "d", "e", "f"] : List String).length ∧
      ts.flatten = ["a", "b", "c", "d", "e", "f"] ∧
      (∀ b ∈ ts, b ≠ [] ∧ b.length ≤ (2 : Int).toNat) ∧
      (∀ b ∈ ts.dropLast, b.length = (2 : Int).toNat)) ∧
    testMetricsInBatches netDown ([] : List String) (-7) = some (initialResults [], []) ∧
    (∀ (fuel : Nat) (acc : MetricTestResults × List (List String)),
      testMetricsInBatchesAux netDown ["a"] (-1) fuel 0 acc = none) :=
  ⟨(c1_batching_amended netDown ["a", "b", "c", "d", "e", "f"] 2).1 (by decide),
   (c1_batching_amended netDown ([] : List String) (-7)).2.1 rfl,
   fun fuel acc =>
     (c1_batching_amended netDown ["a"] (-1)).2.2 (by decide) (by decide) fuel acc⟩

/-! ## C8: corrected partition claim -/

/-- C8 counterexample: a probe that fails with an empty error message is
classified inactive while its error field is non-null, refuting the claim
that every element of the inactive list has a null error field. -/
theorem c8_partition_cex :
    testMetricsInBatches netEmptyMsg ["a"] 1 =
      some ({ active := [],
              inactive := [{ context := "a", active := false, dataPoints := 0,
                             labels := [], lastValue := none, error := some "" }],
              errors := [],
              summary := { total := 1, tested := 1, activeCount := 0,
                           inactiveCount := 1, errorCount := 0 } },
            [["a"]]) ∧
    (some "" : Option String) ≠ none := by
  exact ⟨by decide, by simp⟩

/-- C8 (amended): for batchSize at least 1 the three result lists are the
three classification filters of the probe results in input order (hence
pairwise disjoint and jointly exhaustive, by the trichotomy of the
predicates), the counters equal the list lengths, tested is their sum and
the input length; every element of errors carries a truthy (nonempty)
message, every element of active is active with a null error, and every
element of inactive is not active with an error that is null or the empty
string (the empty string case is what the original claim missed). -/
theorem c8_partition_amended (net : AgentNet) (cs : List String) (bs : Int)
    (hbs : 1 ≤ bs) :
    ∃ R ts, testMetricsInBatches net cs bs = some (R, ts) ∧
      R.active = (cs.map (fun c => queryAgentMetric net c)).filter isActiveRes ∧
      R.inactive = (cs.map (fun c => queryAgentMetric net c)).filter isInactiveRes ∧
      R.errors = (cs.map (fun c => queryAgentMetric net c)).filter isErrored ∧
      R.summary.activeCount = R.active.length ∧
      R.summary.inactiveCount = R.inactive.length ∧
      R.summary.errorCount = R.errors.length ∧
      R.summary.tested = R.active.length + R.inactive.length + R.errors.length ∧
      R.summary.tested = cs.length ∧
      (∀ r : MetricResult,
        isErrored r = true ∨ isActiveRes r = true ∨ isInactiveRes r = true) ∧
      (∀ r : MetricResult, ¬(isErrored r = true ∧ isActiveRes r = true)) ∧
      (∀ r : MetricResult, ¬(isErrored r = true ∧ isInactiveRes r = true)) ∧
      (∀ r : MetricResult, ¬(isActiveRes r = true ∧ isInactiveRes r = true)) ∧
      (∀ r ∈ R.errors, ∃ m, r.error = some m ∧ m ≠ "") ∧
      (∀ r ∈ R.active, r.active = true ∧ r.error = none) ∧
      (∀ r ∈ R.inactive, r.active = false ∧ (r.error = none ∨ r.error = some "")) := by
  obtain ⟨ts, h1, _, _, _⟩ := testMetrics_run net cs bs hbs
  obtain ⟨ha, hi, he, _, htest, hac, hic, hec⟩ :=
    foldl_categorize_spec (cs.map (fun c => queryAgentMetric net c)) (initialResults cs)
  set all := cs.map (fun c => queryAgentMetric net c) with halldef
  refine ⟨_, ts, h1, ?_, ?_, ?_, ?_, ?_, ?_, ?_, ?_,
    fun r => (classification_trichotomy r).1,
    fun r => (classification_trichotomy r).2.1,
    fun r => (classification_trichotomy r).2.2.1,
    fun r => (classification_trichotomy r).2.2.2, ?_, ?_, ?_⟩
  · rw [ha]; simp [initialResults]
  · rw [hi]; simp [initialResults]
  · rw [he]; simp [initialResults]
  · rw [hac, ha]; simp [initialResults]
  · rw [hic, hi]; simp [initialResults]
  · rw [hec, he]; simp [initialResults]
  · rw [htest, ha, hi, he]
    simp only [initialResults, List.nil_append]
    have := filter_three_length all
    omega
  · rw [htest]
    simp [initialResults, halldef]
  · intro r hr
    rw [he] at hr
    simp only [initialResults, List.nil_append] at hr
    exact (isErrored_spec r).mp (List.mem_filter.mp hr).2
  · intro r hr
    rw [ha] at hr
    simp only [initialResults, List.nil_append] at hr
    have hmem := List.mem_filter.mp hr
    have hact := ((isActiveRes_spec r).mp hmem.2).1
    obtain ⟨c, _, hcq⟩ := List.mem_map.mp hmem.1
    refine ⟨hact, ?_⟩
    rw [← hcq] at hact ⊢
    exact queryAgent_active_error net c hact
  · intro r hr
    rw [hi] at hr
    simp only [initialResults, List.nil_append] at hr
    exact (isInactiveRes_spec r).mp (List.mem_filter.mp hr).2

/-- Witness for c8_partition_amended at a concrete network and list. -/
theorem c8_partition_w :
    ∃ R ts, testMetricsInBatches netDown ["a", "b", "c"] 2 = some (R, ts) ∧
      R.active = ((["a", "b", "c"] : List String).map
        (fun c => queryAgentMetric netDown c)).filter isActiveRes ∧
      R.inactive = ((["a", "b", "c"] : List String).map
        (fun c => queryAgentMetric netDown c)).filter isInactiveRes ∧
      R.errors = ((["a", "b", "c"] : List String).map
        (fun c => queryAgentMetric netDown c)).filter isErrored ∧
      R.summary.activeCount = R.active.length ∧
      R.summary.inactiveCount = R.inactive.length ∧
      R.summary.errorCount = R.errors.length ∧
      R.summary.tested = R.active.length + R.inactive.length + R.errors.length ∧
      R.summary.tested = (["a", "b", "c"] : List String).length ∧
      (∀ r : MetricResult,
        isErrored r = true ∨ isActiveRes r = true ∨ isInactiveRes r = true) ∧
      (∀ r : MetricResult, ¬(isErrored r = true ∧ isActiveRes r = true)) ∧
      (∀ r : MetricResult, ¬(isErrored r = true ∧ isInactiveRes r = true)) ∧
      (∀ r : MetricResult, ¬(isActiveRes r = true ∧ isInactiveRes r = true)) ∧
      (∀ r ∈ R.errors, ∃ m, r.error = some m ∧ m ≠ "") ∧
      (∀ r ∈ R.active, r.active = true ∧ r.error = none) ∧
      (∀ r ∈ R.inactive, r.active = false ∧ (r.error = none ∨ r.error = some "")) :=
  c8_partition_amended netDown ["a", "b", "c"] 2 (by decide)

/-! ## C9: the probed agent URL -/

theorem testAux_net_congr (net net' : AgentNet) (cs : List String) (bs : Int)
    (hag : ∀ c ∈ cs, net (agentDataUrl sandboxHost c (-300)) =
      net' (agentDataUrl sandboxHost c (-300))) :
    ∀ (fuel : Nat) (i : Int) (acc : MetricTestResults × List (List String)),
      testMetricsInBatchesAux net cs bs fuel i acc =
        testMetricsInBatchesAux net' cs bs fuel i acc := by
  intro fuel
  induction fuel with
  | zero => intro i acc; rfl
  | succ fuel ih =>
    intro i acc
    unfold testMetricsInBatchesAux
    by_cases hc : i < (cs.length : Int)
    · rw [if_pos hc, if_pos hc]
      have hmap : (jsSlice cs i (i + bs)).map (fun c => queryAgentMetric net c) =
          (jsSlice cs i (i + bs)).map (fun c => queryAgentMetric net' c) := by
        apply List.map_congr_left
        intro c hcmem
        unfold queryAgentMetric
        simp only [hag c (jsSlice_subset cs i (i + bs) hcmem)]
      dsimp only
      rw [hmap, ih]
    · rw [if_neg hc, if_neg hc]

/-- C9: the agent URL probed for a context is exactly the fixed
sandbox-host data URL built from the context and the after parameter (the
room is not an input of the URL at all), and the whole batched prober
reads the network only at the URLs of the selected contexts with
afterSeconds -300: two networks that agree on those URLs produce
identical results, so metric-activity testing never probes a node of the
requested room. -/
theorem c9_agent_url :
    (∀ (c : String) (afterSeconds : Int),
      agentDataUrl sandboxHost c afterSeconds =
        "http://216.153.63.25:19999/api/v1/data?context=" ++
          (c ++ ("&after=" ++ (toString afterSeconds ++ "&before=0")))) ∧
    (∀ (net net' : AgentNet) (cs : List String) (bs : Int),
      (∀ c ∈ cs, net (agentDataUrl sandboxHost c (-300)) =
        net' (agentDataUrl sandboxHost c (-300))) →
      testMetricsInBatches net cs bs = testMetricsInBatches net' cs bs) := by
  constructor
  · intro c afterSeconds
    have hlit : (("http://" ++ "216.153.63.25") ++ ":19999/api/v1/data?context=" : String) =
        "http://216.153.63.25:19999/api/v1/data?context=" := rfl
    unfold agentDataUrl sandboxHost
    rw [← hlit]
    simp [String.append_assoc]
  · intro net net' cs bs hag
    unfold testMetricsInBatches
    exact testAux_net_congr net net' cs bs hag _ _ _

/-- Witness for c9_agent_url: the URL for the context system.cpu with the
default after of -300, and the congruence at a concrete network. -/
theorem c9_agent_url_w :
    agentDataUrl sandboxHost "system.cpu" (-300) =
      "http://216.153.63.25:19999/api/v1/data?context=" ++
        ("system.cpu" ++ ("&after=" ++ (toString (-300 : Int) ++ "&before=0"))) ∧
    testMetricsInBatches netDown ["system.cpu"] 5 =
      testMetricsInBatches netDown ["system.cpu"] 5 :=
  ⟨c9_agent_url.1 "system.cpu" (-300),
   c9_agent_url.2 netDown netDown ["system.cpu"] 5 (fun _ _ => rfl)⟩

/-! ## C2: alarm retention and totals -/

theorem alarmsLoopStep_eq (roomsData : List RoomInfo)
    (st : List RoomAlarmData × List RoomAlarmData) (room : RoomAlarmEntry) :
    alarmsLoopStep roomsData st room =
      if retainPred roomsData room then
        (st.1 ++ [mkRoomData roomsData room],
         if 0 < entryCritical room then st.2 ++ [mkRoomData roomsData room] else st.2)
      else st := by
  unfold alarmsLoopStep retainPred mkRoomData
  cases hl : roomIdToName roomsData room.roomID with
  | none => simp [truthyStr]
  | some s =>
      by_cases hs : s = "All nodes"
      · subst hs
        simp [truthyStr]
      · simp only [truthyStr, hl, Option.getD_some, beq_iff_eq, hs]
        simp [hs]

theorem alarmsFoldl_spec (roomsData : List RoomInfo) :
    ∀ (l : List RoomAlarmEntry) (st : List RoomAlarmData × List RoomAlarmData),
      l.foldl (alarmsLoopStep roomsData) st =
        (st.1 ++ (l.filter (retainPred roomsData)).map (mkRoomData roomsData),
         st.2 ++ ((l.filter (retainPred roomsData)).filter
           (fun room => decide (0 < entryCritical room))).map (mkRoomData roomsData)) := by
  intro l
  induction l with
  | nil => intro st; simp
  | cons room t ih =>
      intro st
      rw [List.foldl_cons, alarmsLoopStep_eq, ih]
      by_cases hr : retainPred roomsData room = true
      · by_cases hc : 0 < entryCritical room
        · simp [List.filter_cons, hr, hc, List.append_assoc]
        · simp [List.filter_cons, hr, hc, List.append_assoc]
      · simp [List.filter_cons, hr]

theorem foldl_add_proj {α : Type} (f : α → Nat) :
    ∀ (l : List α) (s : Nat), l.foldl (fun a r => a + f r) s = s + (l.map f).sum := by
  intro l
  induction l with
  | nil => intro s; simp
  | cons x t ih =>
      intro s
      rw [List.foldl_cons, ih]
      simp [Nat.add_assoc]

theorem foldl_add_warnings (l : List RoomAlarmData) (s : Nat) :
    l.foldl (fun a r => a + r.warnings) s = s + (l.map (fun r => r.warnings)).sum :=
  foldl_add_proj (fun r => r.warnings) l s

theorem foldl_add_critical (l : List RoomAlarmData) (s : Nat) :
    l.foldl (fun a r => a + r.critical) s = s + (l.map (fun r => r.critical)).sum :=
  foldl_add_proj (fun r => r.critical) l s

theorem foldl_add_unreachable (l : List RoomAlarmData) (s : Nat) :
    l.foldl (fun a r => a + r.unreachable) s = s + (l.map (fun r => r.unreachable)).sum :=
  foldl_add_proj (fun r => r.unreachable) l s

theorem getNetDataAlarms_ok_spec (alarmsData : AlarmsResponse)
    (roomsData : List RoomInfo)
    (detailFetch : List RoomAlarmData → List CriticalAlarm) :
    getNetDataAlarms (.ok (alarmsData, roomsData)) detailFetch =
      { totals := { warnings := ((((alarmsData.results.getD []).filter
                      (retainPred roomsData)).map (mkRoomData roomsData)).map
                      (fun r => r.warnings)).sum,
                    critical := ((((alarmsData.results.getD []).filter
                      (retainPred roomsData)).map (mkRoomData roomsData)).map
                      (fun r => r.critical)).sum,
                    unreachable := ((((alarmsData.results.getD []).filter
                      (retainPred roomsData)).map (mkRoomData roomsData)).map
                      (fun r => r.unreachable)).sum,
                    totalRooms := (alarmsData.results.getD []).length,
                    roomsWithIssues := (((alarmsData.results.getD []).filter
                      (retainPred roomsData)).map (mkRoomData roomsData)).length },
        roomsWithAlarms := (((alarmsData.results.getD []).filter
          (retainPred roomsData)).map (mkRoomData roomsData)),
        criticalAlarmDetails :=
          (if 0 < ((((alarmsData.results.getD []).filter
              (retainPred roomsData)).filter
              (fun room => decide (0 < entryCritical room))).map
              (mkRoomData roomsData)).length then
            detailFetch ((((alarmsData.results.getD []).filter
              (retainPred roomsData)).filter
              (fun room => decide (0 < entryCritical room))).map
              (mkRoomData roomsData))
          else []),
        allRooms := alarmsData.results.getD [], error := none } := by
  unfold getNetDataAlarms
  dsimp only
  rw [alarmsFoldl_spec]
  dsimp only
  rw [foldl_add_warnings, foldl_add_critical, foldl_add_unreachable]
  simp

/-- C2: on a successful pair of fetches, roomsWithAlarms is exactly the
list of counter entries that have a nonzero counter and whose room ID
resolves through the fetched room list to the sentinel name All nodes, in
fetch order; an entry absent from the lookup is dropped whatever its
counters; and the three totals are sums over the retained records only,
with roomsWithIssues their count. -/
theorem c2_alarm_retention (alarmsData : AlarmsResponse) (roomsData : List RoomInfo)
    (detailFetch : List RoomAlarmData → List CriticalAlarm) :
    (getNetDataAlarms (.ok (alarmsData, roomsData)) detailFetch).roomsWithAlarms =
      ((alarmsData.results.getD []).filter (retainPred roomsData)).map
        (mkRoomData roomsData) ∧
    (∀ room : RoomAlarmEntry, retainPred roomsData room = true ↔
      ((0 < entryWarnings room ∨ 0 < entryCritical room ∨ 0 < entryUnreachable room) ∧
        roomIdToName roomsData room.roomID = some "All nodes")) ∧
    (getNetDataAlarms (.ok (alarmsData, roomsData)) detailFetch).totals.warnings =
      (((getNetDataAlarms (.ok (alarmsData, roomsData)) detailFetch).roomsWithAlarms).map
        (fun r => r.warnings)).sum ∧
    (getNetDataAlarms (.ok (alarmsData, roomsData)) detailFetch).totals.critical =
      (((getNetDataAlarms (.ok (alarmsData, roomsData)) detailFetch).roomsWithAlarms).map
        (fun r => r.critical)).sum ∧
    (getNetDataAlarms (.ok (alarmsData, roomsData)) detailFetch).totals.unreachable =
      (((getNetDataAlarms (.ok (alarmsData, roomsData)) detailFetch).roomsWithAlarms).map
        (fun r => r.unreachable)).sum ∧
    (getNetDataAlarms (.ok (alarmsData, roomsData)) detailFetch).totals.roomsWithIssues =
      ((getNetDataAlarms (.ok (alarmsData, roomsData)) detailFetch).roomsWithAlarms).length := by
  rw [getNetDataAlarms_ok_spec]
  refine ⟨rfl, ?_, rfl, rfl, rfl, rfl⟩
  intro room
  unfold retainPred
  simp [Bool.and_eq_true, decide_eq_true_eq, beq_iff_eq]
  tauto

/-! ## C7: utilization rendering on non-numeric fields -/

/-- C7 counterexample: with allocated and allocatable both present as the
truthy non-numeric strings abc and xyz, the rendered utilization is the
string NaN% (from the unguarded NaN division), not the string Unknown the
claim asserts; Unknown is only the fallback for an absent or falsy
field. -/
theorem c7_utilization_cex :
    utilizationStr { emptyProvider with
      allocated := some (.str "abc"), allocatable := some (.str "xyz") } = "NaN%" ∧
    ("NaN%" : String) ≠ "Unknown" := by
  exact ⟨by decide, by decide⟩

/-- C7 (amended): whenever both resource fields hold truthy strings that
the Number conversion maps to NaN, the utilization field of the rendered
CPU and memory issue lines is the string NaN% rather than Unknown or a
percentage. -/
theorem c7_utilization_amended (node : AkashProvider) (s t : String)
    (hs : node.allocated = some (.str s)) (ht : node.allocatable = some (.str t))
    (hts : s ≠ "") (htt : t ≠ "")
    (hns : jsStringToNumber s = .nan) (hnt : jsStringToNumber t = .nan) :
    utilizationStr node = "NaN%" ∧
    containsStr (cpuIssueBlock node) "NaN%" ∧
    containsStr (memoryIssueBlock node) "NaN%" := by
  have hpct : ("NaN" : String) ++ "%" = "NaN%" := rfl
  have hu : utilizationStr node = "NaN%" := by
    unfold utilizationStr
    rw [hs, ht]
    simp [truthyPrim, hts, htt, jsNumberOfPrim, hns, hnt, jsDiv, jsMul, jsToFixed1, hpct]
  refine ⟨hu, ?_, ?_⟩
  · unfold cpuIssueBlock
    rw [hu]
    refine ⟨"\n🔴 HOST: " ++ displayOpt (jsOrStr node.host node.provider) ++
      "\n   • Node: " ++ jsOrDefault node.node "N/A" ++
      "\n   • Allocatable: " ++ primDisplay node.allocatable "Unknown" ++
      "\n   • Allocated: " ++ primDisplay node.allocated "Unknown" ++
      "\n   • Utilization: ",
      "\n   • Issue: CPU over-allocation detected\n", ?_⟩
    simp [String.append_assoc]
  · unfold memoryIssueBlock
    rw [hu]
    refine ⟨"\n🔴 HOST: " ++ displayOpt (jsOrStr node.host node.provider) ++
      "\n   • Node: " ++ jsOrDefault node.node "N/A" ++
      "\n   • Allocatable: " ++ primDisplay node.allocatable "Unknown" ++
      "\n   • Allocated: " ++ primDisplay node.allocated "Unknown" ++
      "\n   • Utilization: ",
      "\n   • Issue: Memory over-allocation detected\n", ?_⟩
    simp [String.append_assoc]

/-- Witness for c7_utilization_amended at the concrete node of the
counterexample. -/
theorem c7_utilization_w :
    utilizationStr { emptyProvider with
      allocated := some (.str "abc"), allocatable := some (.str "xyz") } = "NaN%" ∧
    containsStr (cpuIssueBlock { emptyProvider with
      allocated := some (.str "abc"), allocatable := some (.str "xyz") }) "NaN%" ∧
    containsStr (memoryIssueBlock { emptyProvider with
      allocated := some (.str "abc"), allocatable := some (.str "xyz") }) "NaN%" :=
  c7_utilization_amended _ "abc" "xyz" rfl rfl (by decide) (by decide)
    (by decide) (by decide)

/-! ## C4: dispatch, registered names, and the destructuring hole -/

theorem isOkResult_mapError {ε ε' α : Type} (f : ε → ε') (e : Except ε α) :
    isOkResult (e.mapError f) = isOkResult e := by
  cases e <;> rfl

theorem isOkResult_exists {ε α : Type} (e : Except ε α) :
    isOkResult e = true ↔ ∃ r, e = .ok r := by
  cases e <;> simp [isOkResult]

theorem netdataHandleToolCall_ok (env : Env) (args : Option ToolArgs)
    (name : String) (h : name ∈ netdataToolNames) :
    isOkResult (netdataHandleToolCall env name args) = true := by
  simp only [netdataToolNames, List.mem_cons, List.not_mem_nil, or_false] at h
  rcases h with h|h|h|h|h|h|h|h|h|h|h <;> subst h <;> rfl

theorem akashHandleToolCall_ok (env : Env) (args : Option ToolArgs)
    (name : String) (h : name ∈ akashToolNames) :
    isOkResult (akashHandleToolCall env name args) = true := by
  simp only [akashToolNames, List.mem_cons, List.not_mem_nil, or_false] at h
  rcases h with h|h|h|h|h|h <;> subst h <;> rfl

theorem searchWiki_ok (env : Env) (a : ToolArgs) :
    isOkResult (searchWiki env (some a)) = true := by
  unfold searchWiki
  dsimp only
  split <;> first
    | rfl
    | (split <;> first
        | rfl
        | (split <;> rfl))

theorem getWikiPage_ok (env : Env) (a : ToolArgs) :
    isOkResult (getWikiPage env (some a)) = true := by
  unfold getWikiPage
  dsimp only
  split <;> first
    | rfl
    | (split <;> first
        | rfl
        | (split <;> rfl))

theorem githubHandleToolCall_ok (env : Env) (a : ToolArgs) (name : String)
    (h : name ∈ githubToolNames) :
    isOkResult (githubHandleToolCall env name (some a)) = true := by
  simp only [githubToolNames, List.mem_cons, List.not_mem_nil, or_false] at h
  rcases h with h|h|h|h <;> subst h
  · exact searchWiki_ok env a
  · exact getWikiPage_ok env a
  · rfl
  · rfl

theorem akash_not_netdata (name : String) (h : name ∈ akashToolNames) :
    name ∉ netdataToolNames := by
  simp only [akashToolNames, List.mem_cons, List.not_mem_nil, or_false] at h
  rcases h with h|h|h|h|h|h <;> subst h <;> decide

theorem github_not_netdata (name : String) (h : name ∈ githubToolNames) :
    name ∉ netdataToolNames := by
  simp only [githubToolNames, List.mem_cons, List.not_mem_nil, or_false] at h
  rcases h with h|h|h|h <;> subst h <;> decide

theorem github_not_akash (name : String) (h : name ∈ githubToolNames) :
    name ∉ akashToolNames := by
  simp only [githubToolNames, List.mem_cons, List.not_mem_nil, or_false] at h
  rcases h with h|h|h|h <;> subst h <;> decide

theorem handleToolCall_netdata (env : Env) (name : String) (args : Option ToolArgs)
    (h : name ∈ netdataToolNames) :
    handleToolCall env name args =
      (netdataHandleToolCall env name args).mapError DispatchFault.thrown := by
  have h1 : netdataToolNames.contains name = true := by simpa using h
  unfold handleToolCall
  rw [h1]
  simp

theorem handleToolCall_akash (env : Env) (name : String) (args : Option ToolArgs)
    (h : name ∈ akashToolNames) :
    handleToolCall env name args =
      (akashHandleToolCall env name args).mapError DispatchFault.thrown := by
  have h1 : netdataToolNames.contains name = false := by
    simpa using akash_not_netdata name h
  have h2 : akashToolNames.contains name = true := by simpa using h
  unfold handleToolCall
  rw [h1, h2]
  simp

theorem handleToolCall_github (env : Env) (name : String) (args : Option ToolArgs)
    (h : name ∈ githubToolNames) :
    handleToolCall env name args =
      (githubHandleToolCall env name args).mapError DispatchFault.thrown := by
  have h1 : netdataToolNames.contains name = false := by
    simpa using github_not_netdata name h
  have h2 : akashToolNames.contains name = false := by
    simpa using github_not_akash name h
  have h3 : githubToolNames.contains name = true := by simpa using h
  unfold handleToolCall
  rw [h1, h2, h3]
  simp

theorem handleToolCall_unknown (env : Env) (name : String) (args : Option ToolArgs)
    (h : name ∉ allToolNames) :
    handleToolCall env name args =
      .error (.methodNotFound ("Unknown tool: " ++ name)) := by
  have hn1 : name ∉ netdataToolNames := fun hm => h (by simp [allToolNames, hm])
  have hn2 : name ∉ akashToolNames := fun hm => h (by simp [allToolNames, hm])
  have hn3 : name ∉ githubToolNames := fun hm => h (by simp [allToolNames, hm])
  have h1 : netdataToolNames.contains name = false := by simpa using hn1
  have h2 : akashToolNames.contains name = false := by simpa using hn2
  have h3 : githubToolNames.contains name = false := by simpa using hn3
  unfold handleToolCall
  rw [h1, h2, h3]
  simp

theorem serverCallTool_of_ok (env : Env) (name : String) (args : Option ToolArgs)
    (r : ToolResponse) (h : handleToolCall env name args = .ok r) :
    serverCallTool env name args = .ok r := by
  unfold serverCallTool
  rw [h]

theorem serverCallTool_of_thrown (env : Env) (name : String) (args : Option ToolArgs)
    (m : String) (h : handleToolCall env name args = .error (.thrown m)) :
    serverCallTool env name args =
      .error (.internalError ("Error executing tool " ++ name ++ ": " ++ m)) := by
  unfold serverCallTool
  rw [h]

/-- C4 counterexample: search_wiki is a registered tool name, yet a call
with an absent arguments object surfaces a protocol-level internal-error
fault, because the handler destructures its arguments before its try
block; this refutes the claim that no call with a registered name surfaces
a protocol-level fault. -/
theorem c4_dispatch_cex :
    ("search_wiki" ∈ allToolNames) ∧
    serverCallTool env0 "search_wiki" none =
      .error (.internalError ("Error executing tool " ++ "search_wiki" ++ ": " ++
        destructureErrMsg "query")) := by
  exact ⟨by decide, rfl⟩

/-- C4 (amended): the dispatcher raises the protocol-level unknown-tool
fault exactly when the name is in no registered tool name set; a call
with a registered name succeeds with a response envelope, except that the
two wiki handlers search_wiki and get_wiki_page read their arguments
object before their try block, so calling either with an absent arguments
object raises a type error that surfaces as a protocol-level
internal-error fault. -/
theorem c4_dispatch_amended (env : Env) (name : String) (args : Option ToolArgs) :
    (isOkResult (serverCallTool env name args) = true ↔
      (name ∈ allToolNames ∧
        ((name = "search_wiki" ∨ name = "get_wiki_page") → args ≠ none))) ∧
    ((∃ m, serverCallTool env name args = .error (.methodNotFound m)) ↔
      name ∉ allToolNames) := by
  by_cases h1 : name ∈ netdataToolNames
  · have hok : isOkResult (handleToolCall env name args) = true := by
      rw [handleToolCall_netdata env name args h1, isOkResult_mapError]
      exact netdataHandleToolCall_ok env args name h1
    obtain ⟨r, hr⟩ := (isOkResult_exists _).mp hok
    have hs := serverCallTool_of_ok env name args r hr
    have hall : name ∈ allToolNames := by simp [allToolNames, h1]
    have hnw : ¬(name = "search_wiki" ∨ name = "get_wiki_page") := by
      rintro (h | h) <;> subst h <;> revert h1 <;> decide
    refine ⟨⟨fun _ => ⟨hall, fun h => absurd h hnw⟩, fun _ => by rw [hs]; rfl⟩, ?_⟩
    rw [hs]
    constructor
    · rintro ⟨m, hm⟩; cases hm
    · intro hnot; exact absurd hall hnot
  · by_cases h2 : name ∈ akashToolNames
    · have hok : isOkResult (handleToolCall env name args) = true := by
        rw [handleToolCall_akash env name args h2, isOkResult_mapError]
        exact akashHandleToolCall_ok env args name h2
      obtain ⟨r, hr⟩ := (isOkResult_exists _).mp hok
      have hs := serverCallTool_of_ok env name args r hr
      have hall : name ∈ allToolNames := by simp [allToolNames, h2]
      have hnw : ¬(name = "search_wiki" ∨ name = "get_wiki_page") := by
        rintro (h | h) <;> subst h <;> revert h2 <;> decide
      refine ⟨⟨fun _ => ⟨hall, fun h => absurd h hnw⟩, fun _ => by rw [hs]; rfl⟩, ?_⟩
      rw [hs]
      constructor
      · rintro ⟨m, hm⟩; cases hm
      · intro hnot; exact absurd hall hnot
    · by_cases h3 : name ∈ githubToolNames
      · have hall : name ∈ allToolNames := by simp [allToolNames, h3]
        cases args with
        | some a =>
            have hok : isOkResult (handleToolCall env name (some a)) = true := by
              rw [handleToolCall_github env name (some a) h3, isOkResult_mapError]
              exact githubHandleToolCall_ok env a name h3
            obtain ⟨r, hr⟩ := (isOkResult_exists _).mp hok
            have hs := serverCallTool_of_ok env name (some a) r hr
            refine ⟨⟨fun _ => ⟨hall, fun _ => by simp⟩, fun _ => by rw [hs]; rfl⟩, ?_⟩
            rw [hs]
            constructor
            · rintro ⟨m, hm⟩; cases hm
            · intro hnot; exact absurd hall hnot
        | none =>
            simp only [githubToolNames, List.mem_cons, List.not_mem_nil, or_false] at h3
            rcases h3 with h3|h3|h3|h3 <;> subst h3
            · have hth : handleToolCall env "search_wiki" none =
                  .error (.thrown (destructureErrMsg "query")) := by
                rw [handleToolCall_github env "search_wiki" none (by decide)]
                rfl
              have hs := serverCallTool_of_thrown env "search_wiki" none _ hth
              refine ⟨⟨fun hok => ?_, fun ⟨_, himp⟩ => absurd rfl (himp (Or.inl rfl))⟩, ?_⟩
              · rw [hs] at hok; cases hok
              · rw [hs]
                constructor
                · rintro ⟨m, hm⟩; cases hm
                · intro hnot; exact absurd (by decide) hnot
            · have hth : handleToolCall env "get_wiki_page" none =
                  .error (.thrown (destructureErrMsg "page_name")) := by
                rw [handleToolCall_github env "get_wiki_page" none (by decide)]
                rfl
              have hs := serverCallTool_of_thrown env "get_wiki_page" none _ hth
              refine ⟨⟨fun hok => ?_, fun ⟨_, himp⟩ => absurd rfl (himp (Or.inr rfl))⟩, ?_⟩
              · rw [hs] at hok; cases hok
              · rw [hs]
                constructor
                · rintro ⟨m, hm⟩; cases hm
                · intro hnot; exact absurd (by decide) hnot
            · have hr : handleToolCall env "list_rpc_nodes" none =
                  .ok (listRpcNodes env none) := by
                rw [handleToolCall_github env "list_rpc_nodes" none (by decide)]
                rfl
              have hs := serverCallTool_of_ok env "list_rpc_nodes" none _ hr
              refine ⟨⟨fun _ => ⟨by decide, fun h => by rcases h with h | h <;> exact absurd h (by decide)⟩,
                fun _ => by rw [hs]; rfl⟩, ?_⟩
              rw [hs]
              constructor
              · rintro ⟨m, hm⟩; cases hm
              · intro hnot; exact absurd (by decide) hnot
            · have hr : handleToolCall env "get_wiki_pages_list" none =
                  .ok (getWikiPagesList env none) := by
                rw [handleToolCall_github env "get_wiki_pages_list" none (by decide)]
                rfl
              have hs := serverCallTool_of_ok env "get_wiki_pages_list" none _ hr
              refine ⟨⟨fun _ => ⟨by decide, fun h => by rcases h with h | h <;> exact absurd h (by decide)⟩,
                fun _ => by rw [hs]; rfl⟩, ?_⟩
              rw [hs]
              constructor
              · rintro ⟨m, hm⟩; cases hm
              · intro hnot; exact absurd (by decide) hnot
      · have hnall : name ∉ allToolNames := by
          simp [allToolNames, h1, h2, h3]
        have hu := handleToolCall_unknown env name args hnall
        have hs : serverCallTool env name args =
            .error (.methodNotFound ("Unknown tool: " ++ name)) := by
          unfold serverCallTool
          rw [hu]
        refine ⟨⟨fun hok => ?_, fun ⟨hmem, _⟩ => absurd hmem hnall⟩, ?_⟩
        · rw [hs] at hok; cases hok
        · rw [hs]
          exact ⟨fun _ => hnall, fun _ => ⟨_, rfl⟩⟩

/-- Witness for c4_dispatch_amended at a registered netdata tool name. -/
theorem c4_dispatch_w :
    (isOkResult (serverCallTool env0 "get_space_info" (some emptyArgs)) = true ↔
      ("get_space_info" ∈ allToolNames ∧
        (("get_space_info" = "search_wiki" ∨ "get_space_info" = "get_wiki_page") →
          (some emptyArgs : Option ToolArgs) ≠ none))) ∧
    ((∃ m, serverCallTool env0 "get_space_info" (some emptyArgs) =
        .error (.methodNotFound m)) ↔ "get_space_info" ∉ allToolNames) :=
  c4_dispatch_amended env0 "get_space_info" (some emptyArgs)

/-! ## C10: zero sample size gives NaN active rates -/

theorem activeStep_zero (env : Env) (cs : List String)
    (acc : List (String × CategoryStat)) (kv : String × List String)
    (hkv : categoryLookup kv.1 = some kv.2) :
    activeMetricsCategoryStep env cs 0 acc kv =
      if 0 < (cs.filter (fun c => kv.2.any (fun p => jsStartsWith c p))).length then
        acc ++ [(kv.1,
          { totalAvailable :=
              (cs.filter (fun c => kv.2.any (fun p => jsStartsWith c p))).length,
            tested := 0, active := 0, activeRate := "NaN", error := none })]
      else acc := by
  unfold activeMetricsCategoryStep
  have hf : filterContextsByCategory cs kv.1 =
      .ok (cs.filter (fun c => kv.2.any (fun p => jsStartsWith c p))) := by
    simp [filterContextsByCategory, hkv]
  rw [hf]
  dsimp only
  have hres : testMetricsInBatchesTotal env.agent
      (jsSlice (cs.filter (fun c => kv.2.any (fun p => jsStartsWith c p))) 0 0) 5 =
      initialResults [] := by
    rw [jsSlice_zero]
    rfl
  rw [hres]
  rfl

theorem activeStep_mono (env : Env) (cs : List String) (ss : Int)
    (acc : List (String × CategoryStat)) (kv : String × List String)
    (p : String × CategoryStat) (hp : p ∈ acc) :
    p ∈ activeMetricsCategoryStep env cs ss acc kv := by
  unfold activeMetricsCategoryStep
  cases hf : filterContextsByCategory cs kv.1 with
  | error e =>
      simp only [hf]
      exact List.mem_append_left _ hp
  | ok l2 =>
      simp only [hf]
      split
      · exact List.mem_append_left _ hp
      · exact hp

theorem activeFold_mono (env : Env) (cs : List String) (ss : Int) :
    ∀ (l : List (String × List String)) (acc : List (String × CategoryStat)),
      ∀ p ∈ acc, p ∈ l.foldl (activeMetricsCategoryStep env cs ss) acc := by
  intro l
  induction l with
  | nil => intro acc p hp; exact hp
  | cons kv t ih =>
      intro acc p hp
      rw [List.foldl_cons]
      exact ih _ p (activeStep_mono env cs ss acc kv p hp)

theorem activeFold_zero_props (env : Env) (cs : List String) :
    ∀ (l : List (String × List String)),
      (∀ kv ∈ l, categoryLookup kv.1 = some kv.2) →
      ∀ (acc : List (String × CategoryStat)),
        (∀ p ∈ acc, p.2.tested = 0 ∧ p.2.activeRate = "NaN") →
        ∀ p ∈ l.foldl (activeMetricsCategoryStep env cs 0) acc,
          p.2.tested = 0 ∧ p.2.activeRate = "NaN" := by
  intro l
  induction l with
  | nil => intro _ acc hacc p hp; exact hacc p hp
  | cons kv t ih =>
      intro hl acc hacc p hp
      rw [List.foldl_cons] at hp
      refine ih (fun kv2 h2 => hl kv2 (List.mem_cons_of_mem _ h2)) _ ?_ p hp
      intro q hq
      rw [activeStep_zero env cs acc kv (hl kv (List.mem_cons_self _ _))] at hq
      by_cases hlen :
          0 < (cs.filter (fun c => kv.2.any (fun p => jsStartsWith c p))).length
      · rw [if_pos hlen] at hq
        rcases List.mem_append.mp hq with hq1 | hq2
        · exact hacc q hq1
        · have : q = (kv.1,
              { totalAvailable :=
                  (cs.filter (fun c => kv.2.any (fun p => jsStartsWith c p))).length,
                tested := 0, active := 0, activeRate := "NaN", error := none }) := by
            simpa using hq2
          subst this
          exact ⟨rfl, rfl⟩
      · rw [if_neg hlen] at hq
        exact hacc q hq

theorem activeFold_complete (env : Env) (cs : List String) :
    ∀ (l : List (String × List String)),
      (∀ kv ∈ l, categoryLookup kv.1 = some kv.2) →
      ∀ (acc : List (String × CategoryStat)), ∀ kv ∈ l,
        cs.filter (fun c => kv.2.any (fun p => jsStartsWith c p)) ≠ [] →
        ∃ stat, (kv.1, stat) ∈ l.foldl (activeMetricsCategoryStep env cs 0) acc := by
  intro l
  induction l with
  | nil => intro _ acc kv hkv; cases hkv
  | cons kv0 t ih =>
      intro hl acc kv hkv hne
      rw [List.foldl_cons]
      rcases List.mem_cons.mp hkv with heq | hmem
      · subst heq
        refine ⟨{ totalAvailable := (cs.filter (fun c => kv.2.any (fun p => jsStartsWith c p))).length, tested := 0, active := 0, activeRate := "NaN", error := none }, activeFold_mono env cs 0 t _ _ ?_⟩
        rw [activeStep_zero env cs acc kv (hl kv (List.mem_cons_self _ _))]
        have hlen : 0 <
            (cs.filter (fun c => kv.2.any (fun p => jsStartsWith c p))).length :=
          List.length_pos.mpr hne
        rw [if_pos hlen]
        exact List.mem_append_right _ (List.mem_singleton.mpr rfl)
      · exact ih (fun kv2 h2 => hl kv2 (List.mem_cons_of_mem _ h2)) _ kv hmem hne

/-- C10: with sample size 0, every per-category row built by the loop of
getActiveMetricsSummary has tested equal to 0 and an activeRate equal to
the string NaN (from the unguarded 0 by 0 division), and every category
with at least one matching context does contribute such a row. -/
theorem c10_zero_sample (env : Env) (allContexts : List String) :
    (∀ p ∈ activeMetricsCategoryResults env allContexts 0,
      p.2.tested = 0 ∧ p.2.activeRate = "NaN") ∧
    (∀ kv ∈ METRIC_CATEGORIES,
      allContexts.filter (fun c => kv.2.any (fun p => jsStartsWith c p)) ≠ [] →
      ∃ stat, (kv.1, stat) ∈ activeMetricsCategoryResults env allContexts 0) := by
  have hl : ∀ kv ∈ METRIC_CATEGORIES, categoryLookup kv.1 = some kv.2 := by decide
  constructor
  · exact fun p hp =>
      activeFold_zero_props env allContexts METRIC_CATEGORIES hl [] (by simp) p hp
  · exact fun kv hkv hne =>
      activeFold_complete env allContexts METRIC_CATEGORIES hl [] kv hkv hne

/-- Witness for c10_zero_sample: a single disk context with sample size 0
yields the disk row with tested 0 and activeRate NaN. -/
theorem c10_zero_sample_w :
    (("disk", ({ totalAvailable := 1, tested := 0, active := 0, activeRate := "NaN", error := none } : CategoryStat)) ∈
      activeMetricsCategoryResults env0 ["disk.io"] 0) ∧
    (({ totalAvailable := 1, tested := 0, active := 0, activeRate := "NaN", error := none } : CategoryStat).tested = 0 ∧
      ({ totalAvailable := 1, tested := 0, active := 0, activeRate := "NaN", error := none } : CategoryStat).activeRate = "NaN") ∧
    (∃ stat, ("disk", stat) ∈ activeMetricsCategoryResults env0 ["disk.io"] 0) :=
  ⟨by decide,
   (c10_zero_sample env0 ["disk.io"]).1
     ("disk", ({ totalAvailable := 1, tested := 0, active := 0, activeRate := "NaN", error := none } : CategoryStat))
     (by decide),
   (c10_zero_sample env0 ["disk.io"]).2 ("disk", ["disk.", "system.io"])
     (by decide) (by decide)⟩

end AkashMS
